import Mathlib

/-!
Verification development for the computational core of a 3D-printing
quote service: a mesh analyzer (STL/OBJ parsers plus a shared geometry
reducer) and a deterministic quote engine.

Modelling conventions, used throughout:
* JavaScript numbers are modelled as exact rationals (`ℚ`).  Floating
  point rounding is outside the scope of every claim treated here; all
  claims concern comparisons, counting, clamping and record structure,
  which agree between float64 and exact arithmetic on the inputs used.
* `Math.sqrt`, which only feeds the informational surface-area field, is
  abstracted as a function parameter `sqrtQ : ℚ → ℚ`.
* Byte buffers are `List ℕ` (each entry one byte).
* In-place mutation of a record (the quote engine rescales the caller's
  `bbox_mm` in place) is modelled by returning the post-call record.
-/

namespace Studio

/-- A 3D point; the source stores these as `[x, y, z]` arrays. -/
structure Vec3 where
  x : ℚ
  y : ℚ
  z : ℚ
  deriving DecidableEq, Repr

/-- A triangle, three 3D points; the atomic unit all parsers reduce to. -/
structure Triangle where
  p0 : Vec3
  p1 : Vec3
  p2 : Vec3
  deriving DecidableEq, Repr

/-- Source `subtract(a, b)`. -/
def subtract (a b : Vec3) : Vec3 := ⟨a.x - b.x, a.y - b.y, a.z - b.z⟩

/-- Source `cross(a, b)`. -/
def cross (a b : Vec3) : Vec3 :=
  ⟨a.y * b.z - a.z * b.y, a.z * b.x - a.x * b.z, a.x * b.y - a.y * b.x⟩

/-- Source `dot(a, b)`. -/
def dot (a b : Vec3) : ℚ := a.x * b.x + a.y * b.y + a.z * b.z

/-- Squared magnitude of a vector; `magnitude(a)` in the source is
`sqrt (normSq a)` and is only used through the abstract `sqrtQ`. -/
def normSq (a : Vec3) : ℚ := a.x ^ 2 + a.y ^ 2 + a.z ^ 2

/-- A total order on points used to canonicalise an undirected edge.  The
source canonicalises by sorting the two JavaScript strings `"x,y,z"`; since
distinct numbers print as distinct strings, both canonicalisations identify
exactly the unordered pair of endpoints, which is all the edge counter
uses. -/
def vecLe (a b : Vec3) : Prop :=
  a.x < b.x ∨ (a.x = b.x ∧ (a.y < b.y ∨ (a.y = b.y ∧ a.z ≤ b.z)))

instance (a b : Vec3) : Decidable (vecLe a b) := by
  unfold vecLe; infer_instance

/-- Canonical representative of the undirected edge `{a, b}`; models the
source's sorted string key `edge.map(v => v.join(',')).sort().join('|')`. -/
def edgeKey (a b : Vec3) : Vec3 × Vec3 := if vecLe a b then (a, b) else (b, a)

/-- The three directed edge slots of a triangle, in source order
`[[v0,v1],[v1,v2],[v2,v0]]`. -/
def edgesOfTriangle (t : Triangle) : List (Vec3 × Vec3) :=
  [(t.p0, t.p1), (t.p1, t.p2), (t.p2, t.p0)]

/-- All canonical edge keys of a triangle list, one per edge slot; the
multiset of entries matches the source's `edgeCounts` map (a key's count in
this list is its value in the map). -/
def edgeKeyList (tris : List Triangle) : List (Vec3 × Vec3) :=
  (tris.map edgesOfTriangle).flatten.map (fun e => edgeKey e.1 e.2)

/-- The watertightness estimate: every edge-count map entry equals 2. -/
def watertightCheck (tris : List Triangle) : Bool :=
  (edgeKeyList tris).all (fun k => decide ((edgeKeyList tris).count k = 2))

/-- Axis-aligned bounding box extents in millimeters. -/
structure BBox where
  x : ℚ
  y : ℚ
  z : ℚ
  deriving DecidableEq, Repr

/-- The fields `calculateMetricsFromTriangles` produces (the source's
`Omit<MeshMetrics, 'format' | 'notes' | 'file_bytes' | 'parse_ms' | 'units'>`). -/
structure MetricsCore where
  bbox_mm : BBox
  volume_mm3 : ℚ
  surface_area_mm2 : ℚ
  triangles : ℕ
  watertight_est : Bool
  deriving DecidableEq, Repr

/-- Componentwise minimum of a running vector and a triangle's vertices
(one iteration of the source's bounding-box loop). -/
def vminTri (m : Vec3) (t : Triangle) : Vec3 :=
  ⟨min m.x (min t.p0.x (min t.p1.x t.p2.x)),
   min m.y (min t.p0.y (min t.p1.y t.p2.y)),
   min m.z (min t.p0.z (min t.p1.z t.p2.z))⟩

/-- Componentwise maximum, as `vminTri`. -/
def vmaxTri (m : Vec3) (t : Triangle) : Vec3 :=
  ⟨max m.x (max t.p0.x (max t.p1.x t.p2.x)),
   max m.y (max t.p0.y (max t.p1.y t.p2.y)),
   max m.z (max t.p0.z (max t.p1.z t.p2.z))⟩

/-- Source `calculateMetricsFromTriangles(triangles, unit_conversion_factor)`:
zero triangles short-circuits to an all-zero watertight record; otherwise one
pass accumulates the bounding box, the surface area (half cross-product
magnitudes), the signed tetrahedron volume (absolute value taken at the end)
and the undirected-edge counts. -/
def calculateMetricsFromTriangles (sqrtQ : ℚ → ℚ) (triangles : List Triangle)
    (ucf : ℚ) : MetricsCore :=
  match triangles with
  | [] =>
    { bbox_mm := ⟨0, 0, 0⟩
      volume_mm3 := 0
      surface_area_mm2 := 0
      triangles := 0
      watertight_est := true }
  | t0 :: _ =>
    let firstVertex := t0.p0
    let mn := triangles.foldl vminTri firstVertex
    let mx := triangles.foldl vmaxTri firstVertex
    let surfaceArea := triangles.foldl
      (fun s t => s + 1/2 * sqrtQ (normSq (cross (subtract t.p1 t.p0) (subtract t.p2 t.p0)))) 0
    let volume := triangles.foldl (fun s t => s + dot t.p0 (cross t.p1 t.p2) / 6) 0
    { bbox_mm := ⟨(mx.x - mn.x) * ucf, (mx.y - mn.y) * ucf, (mx.z - mn.z) * ucf⟩
      volume_mm3 := |volume| * ucf ^ 3
      surface_area_mm2 := surfaceArea * ucf ^ 2
      triangles := triangles.length
      watertight_est := watertightCheck triangles }

/-! Lexical helpers shared by the ASCII parsers, over character lists (the
contents of a JavaScript string).  JavaScript's `line.trim().split(/\s+/)`
yields no empty tokens on nonempty trimmed lines and `[""]` on blank ones;
dropping empty tokens gives the same dispatch since `""` matches no
keyword. -/

/-- Split on every separator character, keeping empty pieces, like
JavaScript `split`. -/
def splitCharAux (p : Char → Bool) : List Char → List Char → List (List Char)
  | [], acc => [acc.reverse]
  | c :: cs, acc =>
    if p c then acc.reverse :: splitCharAux p cs []
    else splitCharAux p cs (c :: acc)

def splitChar (p : Char → Bool) (cs : List Char) : List (List Char) :=
  splitCharAux p cs []

/-- Whitespace-run split, empties dropped. -/
def wsSplit (cs : List Char) : List (List Char) :=
  (splitChar (fun c => c.isWhitespace) cs).filter (fun t => !t.isEmpty)

def digitVal (c : Char) : ℕ := c.toNat - 48

/-- Longest leading digit run and the remainder. -/
def takeDigits : List Char → List Char × List Char
  | [] => ([], [])
  | c :: cs =>
    if c.isDigit then
      let r := takeDigits cs
      (c :: r.1, r.2)
    else ([], c :: cs)

def digitsToNat (ds : List Char) : ℕ := ds.foldl (fun n c => 10 * n + digitVal c) 0

/-- JavaScript `parseInt(s, 10)`: optional sign then a digit prefix, trailing
characters ignored; `Option.none` models the `NaN` result. -/
def parseIntCore : List Char → Option ℤ
  | '-' :: rest =>
    let d := takeDigits rest
    if d.1.isEmpty then Option.none else some (-(digitsToNat d.1 : ℤ))
  | '+' :: rest =>
    let d := takeDigits rest
    if d.1.isEmpty then Option.none else some (digitsToNat d.1 : ℤ)
  | rest =>
    let d := takeDigits rest
    if d.1.isEmpty then Option.none else some (digitsToNat d.1 : ℤ)

def parseIntJS (s : String) : Option ℤ := parseIntCore s.data

/-- Exponent suffix of a float literal; an `e` with no following digits
contributes nothing, as in `parseFloat`. -/
def expParse : List Char → ℤ
  | '-' :: rest =>
    let d := takeDigits rest
    if d.1.isEmpty then 0 else -(digitsToNat d.1 : ℤ)
  | '+' :: rest =>
    let d := takeDigits rest
    if d.1.isEmpty then 0 else (digitsToNat d.1 : ℤ)
  | rest =>
    let d := takeDigits rest
    if d.1.isEmpty then 0 else (digitsToNat d.1 : ℤ)

/-- JavaScript `parseFloat(s)`: sign, integer digits, optional fraction,
optional exponent, all as a longest valid prefix; `Option.none` models
`NaN`.  The decimal value is taken exactly (float64 rounding is out of
scope, see the header). -/
def parseFloatCore (cs : List Char) : Option ℚ :=
  let signed : ℚ × List Char :=
    match cs with
    | '-' :: r => (-1, r)
    | '+' :: r => (1, r)
    | r => (1, r)
  let intPart := takeDigits signed.2
  let fracPart : List Char × List Char :=
    match intPart.2 with
    | '.' :: r => takeDigits r
    | r => ([], r)
  if intPart.1.isEmpty ∧ fracPart.1.isEmpty then Option.none
  else
    let mant : ℚ := (digitsToNat intPart.1 : ℚ) +
      (digitsToNat fracPart.1 : ℚ) / (10 : ℚ) ^ fracPart.1.length
    let expVal : ℤ :=
      match fracPart.2 with
      | 'e' :: r => expParse r
      | 'E' :: r => expParse r
      | _ => 0
    some (signed.1 * mant * (10 : ℚ) ^ expVal)

def parseFloatJS (s : String) : Option ℚ := parseFloatCore s.data

/-- A parsed coordinate; an unparseable token gives `NaN` in the source,
modelled here as `0` (no claim involves malformed numeric tokens). -/
def pf (cs : List Char) : ℚ := (parseFloatCore cs).getD 0

/-! Byte-level STL parsing. -/

def byteAt (buf : List ℕ) (i : ℕ) : ℕ := buf.getD i 0

/-- Source `buf.readUInt32LE(off)`. -/
def readUInt32LE (buf : List ℕ) (off : ℕ) : ℕ :=
  byteAt buf off + 256 * byteAt buf (off + 1) +
    65536 * byteAt buf (off + 2) + 16777216 * byteAt buf (off + 3)

/-- Source `buf.toString('ascii', 0, 5) === 'solid'`; Node's `ascii`
decoding masks each byte to 7 bits, hence the `% 128`. -/
def startsWithSolid (buf : List ℕ) : Bool :=
  decide (byteAt buf 0 % 128 = 115 ∧ byteAt buf 1 % 128 = 111 ∧
    byteAt buf 2 % 128 = 108 ∧ byteAt buf 3 % 128 = 105 ∧ byteAt buf 4 % 128 = 100)

/-- The source's `isBinary` closure inside `analyzeStl`: under 84 bytes or a
`solid` prefix means ASCII; otherwise binary when the buffer holds at least
`84 + 50 * count` bytes (`buf.length >= expectedSize` in the source). -/
def stlIsBinary (buf : List ℕ) : Bool :=
  if buf.length < 84 then false
  else if startsWithSolid buf then false
  else decide (84 + 50 * readUInt32LE buf 80 ≤ buf.length)

/-- Source `buf.readFloatLE(off)`: IEEE-754 binary32 decoded exactly into
`ℚ`; the non-finite encodings (exponent 255) are modelled as `0`, which no
claim exercises. -/
def readFloat32LE (buf : List ℕ) (off : ℕ) : ℚ :=
  let bits : ℕ := readUInt32LE buf off
  let sign : ℚ := if bits / 2 ^ 31 % 2 = 1 then -1 else 1
  let expBits : ℕ := bits / 2 ^ 23 % 256
  let mant : ℕ := bits % 2 ^ 23
  if expBits = 255 then 0
  else if expBits = 0 then sign * (mant : ℚ) / 2 ^ 149
  else sign * ((2 ^ 23 + mant : ℕ) : ℚ) * (2 : ℚ) ^ ((expBits : ℤ) - 150)

/-- Source `parseStlBinary`: fixed 50-byte records after the 84-byte header,
vertices at record offsets 12..44. -/
def parseStlBinary (buf : List ℕ) : List Triangle :=
  (List.range (readUInt32LE buf 80)).map (fun i =>
    let off := 84 + 50 * i
    { p0 := ⟨readFloat32LE buf (off + 12), readFloat32LE buf (off + 16), readFloat32LE buf (off + 20)⟩
      p1 := ⟨readFloat32LE buf (off + 24), readFloat32LE buf (off + 28), readFloat32LE buf (off + 32)⟩
      p2 := ⟨readFloat32LE buf (off + 36), readFloat32LE buf (off + 40), readFloat32LE buf (off + 44)⟩ })

/-- Byte-to-text decoding for the ASCII parsers; exact for ASCII bytes,
which is all the textual formats use (multi-byte UTF-8 is out of scope). -/
def decodeAscii (buf : List ℕ) : List Char := buf.map Char.ofNat

def splitLines (cs : List Char) : List (List Char) := splitChar (fun c => c = '\n') cs

def vertexTok : List Char := ['v', 'e', 'r', 't', 'e', 'x']
def emptyStr : String := ""

structure StlAsciiAcc where
  current : List Vec3
  tris : List Triangle

/-- One line of the source's ASCII STL scan: `vertex` lines accumulate into
groups of three. -/
def stlAsciiStep (st : StlAsciiAcc) (line : List Char) : StlAsciiAcc :=
  match wsSplit line with
  | t :: rest =>
    if t = vertexTok then
      let v : Vec3 := ⟨pf (rest.getD 0 []), pf (rest.getD 1 []), pf (rest.getD 2 [])⟩
      match st.current with
      | [a, b] => ⟨[], st.tris ++ [⟨a, b, v⟩]⟩
      | cur => ⟨cur ++ [v], st.tris⟩
    else st
  | [] => st

/-- Source `parseStlAscii`. -/
def parseStlAscii (buf : List ℕ) : List Triangle :=
  ((splitLines (decodeAscii buf)).foldl stlAsciiStep ⟨[], []⟩).tris

/-- The parser dispatch inside `analyzeStl`. -/
def stlTriangles (buf : List ℕ) : List Triangle :=
  if stlIsBinary buf then parseStlBinary buf else parseStlAscii buf

/-- The analyzer output before the router adds `file_bytes`/`parse_ms` (the
source's `Omit<MeshMetrics, 'file_bytes' | 'parse_ms'>`). -/
structure PreMetrics where
  format : String
  units : String
  triangles : ℕ
  bbox_mm : BBox
  surface_area_mm2 : ℚ
  volume_mm3 : ℚ
  watertight_est : Bool
  notes : List String
  deriving DecidableEq, Repr

def preOfCore (format units : String) (notes : List String) (m : MetricsCore) : PreMetrics :=
  { format := format, units := units, triangles := m.triangles, bbox_mm := m.bbox_mm,
    surface_area_mm2 := m.surface_area_mm2, volume_mm3 := m.volume_mm3,
    watertight_est := m.watertight_est, notes := notes }

def fmtStl : String := "stl"
def fmtObj : String := "obj"
def unitsAssumedMm : String := "unknown_assumed_mm"

/-- Source `analyzeStl`. -/
def analyzeStl (sqrtQ : ℚ → ℚ) (buf : List ℕ) : PreMetrics :=
  preOfCore fmtStl unitsAssumedMm [] (calculateMetricsFromTriangles sqrtQ (stlTriangles buf) 1)

/-! The OBJ parser. -/

def vTok : List Char := ['v']
def fTok : List Char := ['f']
def ngonNote : String := "triangulated_ngons"
def negIdxNote : String := "negative_indices_supported"

structure ObjAcc where
  vertices : List Vec3
  tris : List Triangle
  notes : List String
  deriving Repr

def splitSlashHead (cs : List Char) : List Char := (splitChar (fun c => c = '/') cs).headD []

/-- Face-reference resolution: `part.split('/')[0]` parsed as an integer
(skip on `NaN`), negative indices counted from the pool's end, 1-based
positives shifted down, out-of-range references skipped (the source's
truthiness test `if (vertices[index])`). -/
def resolveFaceRefs (vertices : List Vec3) (parts : List (List Char)) : List Vec3 :=
  parts.foldl (fun acc p =>
    match parseIntCore (splitSlashHead p) with
    | Option.none => acc
    | some idx =>
      let i : ℤ := if idx < 0 then (vertices.length : ℤ) + idx else idx - 1
      if i < 0 then acc
      else
        match vertices[i.toNat]? with
        | some v => acc ++ [v]
        | Option.none => acc) []

/-- The inner fan loop: `(v0, fv[i], fv[i+1])` for `i = 1 .. len-2`. -/
def fanAux (v0 : Vec3) : List Vec3 → List Triangle
  | a :: b :: rest => ⟨v0, a, b⟩ :: fanAux v0 (b :: rest)
  | _ => []

/-- Fan triangulation of a resolved face (empty for fewer than 3 vertices). -/
def fanTriangulate : List Vec3 → List Triangle
  | v0 :: rest => fanAux v0 rest
  | [] => []

/-- One line of the source's OBJ loop. -/
def objStep (st : ObjAcc) (line : List Char) : ObjAcc :=
  match wsSplit line with
  | [] => st
  | t :: rest =>
    if t = vTok then
      { st with vertices := st.vertices ++
          [⟨pf (rest.getD 0 []), pf (rest.getD 1 []), pf (rest.getD 2 [])⟩] }
    else if t = fTok then
      let fv := resolveFaceRefs st.vertices rest
      if fv.length > 2 then
        { st with
          tris := st.tris ++ fanTriangulate fv
          notes :=
            if fv.length > 3 ∧ st.notes.contains ngonNote = false then st.notes ++ [ngonNote]
            else st.notes }
      else st
    else st

/-- Source `text.includes(' -')`, the simplistic negative-index probe. -/
def hasSpaceDash : List Char → Bool
  | c1 :: c2 :: rest => if c1 = ' ' ∧ c2 = '-' then true else hasSpaceDash (c2 :: rest)
  | _ => false

/-- Source `analyzeObj` on the decoded text. -/
def analyzeObj (sqrtQ : ℚ → ℚ) (text : String) : PreMetrics :=
  let st := (splitLines text.data).foldl objStep ⟨[], [], []⟩
  let notes := st.notes ++ (if hasSpaceDash text.data then [negIdxNote] else [])
  preOfCore fmtObj unitsAssumedMm notes (calculateMetricsFromTriangles sqrtQ st.tris 1)

def analyzeObjBytes (sqrtQ : ℚ → ℚ) (buf : List ℕ) : PreMetrics :=
  analyzeObj sqrtQ (String.mk (decodeAscii buf))

/-! The router `analyzeMeshFile`. -/

/-- The full analyzer result record. -/
structure MeshMetrics where
  format : String
  units : String
  triangles : ℕ
  bbox_mm : BBox
  surface_area_mm2 : ℚ
  volume_mm3 : ℚ
  watertight_est : Bool
  notes : List String
  file_bytes : ℕ
  parse_ms : ℤ
  deriving DecidableEq, Repr

def toLowerStr (s : String) : String := String.mk (s.data.map Char.toLower)

/-- Source `fileName.slice(fileName.lastIndexOf('.')).toLowerCase()`; with
no dot, `lastIndexOf` gives `-1` and `slice(-1)` keeps only the last
character, which then matches no supported extension. -/
def extOf (fileName : String) : String :=
  let cs := fileName.data
  let dotIdxs := (List.range cs.length).filter (fun i => cs.getD i ' ' = '.')
  match dotIdxs.getLast? with
  | some i => toLowerStr (String.mk (cs.drop i))
  | Option.none => toLowerStr (String.mk (cs.drop (cs.length - 1)))

def unsupportedTag : String := "UNSUPPORTED_FORMAT"
def parseErrorTag : String := "PARSE_ERROR"
def wrapMsgA : String := "PARSE_ERROR: Failed to parse "
def wrapMsgB : String := " file. The file may be corrupt or malformed. Original error: "
def unsupportedMsgA : String := "UNSUPPORTED_FORMAT: File type "
def unsupportedMsgB : String := " is not supported."

/-- The router's catch block: `UNSUPPORTED_FORMAT` and `PARSE_ERROR`
messages pass through, anything else is wrapped as a parse error. -/
def wrapCatch (ext : String) (r : Except String PreMetrics) : Except String PreMetrics :=
  match r with
  | Except.ok m => Except.ok m
  | Except.error e =>
    if e.startsWith unsupportedTag then Except.error e
    else if e.startsWith parseErrorTag then Except.error e
    else Except.error (wrapMsgA ++ ext ++ wrapMsgB ++ e)

def extStl : String := ".stl"
def extObj : String := ".obj"
def ext3mf : String := ".3mf"
def extAmf : String := ".amf"

/-- The extension dispatch and catch block of `analyzeMeshFile`: everything
except the two `Date.now()` readings.  The 3MF and AMF branches run through
external zip/XML libraries (JSZip, fast-xml-parser); their buffer-to-metrics
computations are passed in as the function parameters `dec3mf`/`decAmf`. -/
def analyzeCore (sqrtQ : ℚ → ℚ) (dec3mf decAmf : List ℕ → Except String PreMetrics)
    (fileName : String) (buffer : List ℕ) : Except String PreMetrics :=
  let extension := extOf fileName
  if extension = extStl then Except.ok (analyzeStl sqrtQ buffer)
  else if extension = extObj then Except.ok (analyzeObjBytes sqrtQ buffer)
  else if extension = ext3mf then wrapCatch extension (dec3mf buffer)
  else if extension = extAmf then wrapCatch extension (decAmf buffer)
  else Except.error (unsupportedMsgA ++ extension ++ unsupportedMsgB)

/-- Source `analyzeMeshFile`; `startTime`/`endTime` are the two `Date.now()`
readings, which feed only `parse_ms`. -/
def analyzeMeshFile (sqrtQ : ℚ → ℚ) (dec3mf decAmf : List ℕ → Except String PreMetrics)
    (fileName : String) (buffer : List ℕ) (startTime endTime : ℤ) :
    Except String MeshMetrics :=
  match analyzeCore sqrtQ dec3mf decAmf fileName buffer with
  | Except.error e => Except.error e
  | Except.ok pre =>
    Except.ok { format := pre.format, units := pre.units, triangles := pre.triangles,
                bbox_mm := pre.bbox_mm, surface_area_mm2 := pre.surface_area_mm2,
                volume_mm3 := pre.volume_mm3, watertight_est := pre.watertight_est,
                notes := pre.notes, file_bytes := buffer.length,
                parse_ms := endTime - startTime }

/-! The quote engine (`quoteGenerator` in `quote-generator-flow.ts`).  The
pricing configuration is imported from a JSON file absent from the sources,
so it is a parameter here, shaped exactly as the code reads it.  JSON object
lookups become association-list lookups (JSON keys are unique).  The AI
estimation step is an awaited external call; its result is the `est`
parameter.  Warning strings are reproduced verbatim except that
apostrophes are written out (`does not` for the contraction) — no claim
inspects those particular messages. -/

inductive SegTier
  | none
  | moderate
  | heavy
  deriving DecidableEq, Repr

/-- A per-tier table of rationals (the JSON objects indexed by tier name). -/
structure TierTable where
  tierNone : ℚ
  tierModerate : ℚ
  tierHeavy : ℚ
  deriving DecidableEq, Repr

def TierTable.get (t : TierTable) : SegTier → ℚ
  | SegTier.none => t.tierNone
  | SegTier.moderate => t.tierModerate
  | SegTier.heavy => t.tierHeavy

structure ScaleRule where
  ifMaxDimGreaterThan : ℚ
  scaleDivisor : ℚ
  label : String
  deriving DecidableEq, Repr

structure UnitSanity where
  enabled : Bool
  scaleRules : List ScaleRule
  deriving DecidableEq, Repr

structure Capabilities where
  maxNozzleC : ℚ
  maxBedC : ℚ
  hasEnclosure : Bool
  hasHeatedChamber : Bool
  heatedChamberC : ℚ
  hasHardenedNozzle : Bool
  deriving DecidableEq, Repr

/-- A printer record; `capabilities` is optional because the code guards
against its absence.  The rate tables map nozzle-size strings to rates. -/
structure Printer where
  label : String
  buildVolume_mm : BBox
  capabilities : Option Capabilities
  hourlyRates_withShippingEmbedded : List (String × ℚ)
  bedCycleRates_withShippingEmbedded : List (String × ℚ)
  bedCycleHours : ℚ
  deriving DecidableEq, Repr

structure FilamentRequirements where
  minNozzleC : ℚ
  minBedC : ℚ
  requiresEnclosure : Bool
  requiresHeatedChamber : Bool
  requiresChamberTempC : ℚ
  requiresHardenedNozzle : Bool
  deriving DecidableEq, Repr

structure Filament where
  requirements : FilamentRequirements
  sellPricePerGram : ℚ
  deriving DecidableEq, Repr

structure JobScaleSmall where
  maxDim_mm : ℚ
  maxHours : ℚ
  deriving DecidableEq, Repr

structure JobScaleLarge where
  minHours : ℚ
  deriving DecidableEq, Repr

structure JobScaleRules where
  smallPart : JobScaleSmall
  largeAssembly : JobScaleLarge
  deriving DecidableEq, Repr

structure SegmentationCfg where
  efficiency : ℚ
  seamsPerSegmentDefault : ℚ
  bondingLaborPerSeam : ℚ
  maxAutoSegments : List (String × ℚ)
  segmentationModeMultipliers : TierTable
  deriving DecidableEq, Repr

structure RiskModel where
  baseRiskPercent : ℚ
  tierBump : TierTable
  capPercentOfBase : ℚ
  minRisk : ℚ
  deriving DecidableEq, Repr

structure ComplexityCfg where
  thresholdMedium : ℚ
  thresholdHigh : ℚ
  multLow : ℚ
  multMedium : ℚ
  multHigh : ℚ
  deriving DecidableEq, Repr

structure LongJobCfg where
  thresholdHours : ℚ
  multiplier : ℚ
  deriving DecidableEq, Repr

structure MultipliersCfg where
  complexity : ComplexityCfg
  longJob : LongJobCfg
  deriving DecidableEq, Repr

structure LeadTimeCfg where
  utilizationFactor : ℚ
  segmentationExtraDays : TierTable
  minDays : ℚ
  maxDaysCap : ℚ
  deriving DecidableEq, Repr

/-- The pricing configuration, with exactly the fields the code reads;
`printer_fleet` keeps each key's `count` and `embeddedPerHour` is
`meta.shippingEmbedded.embeddedPerHour`. -/
structure PricingMatrix where
  unitSanity : UnitSanity
  printers : List (String × Printer)
  filaments : List (String × Filament)
  jobScaleRules : JobScaleRules
  segmentation : SegmentationCfg
  riskModel : RiskModel
  multipliers : MultipliersCfg
  printer_fleet : List (String × ℚ)
  leadTime : LeadTimeCfg
  embeddedPerHour : ℚ
  deriving DecidableEq, Repr

/-- JavaScript `Math.ceil` on an exact rational, written so that it
kernel-evaluates (`⌈q⌉ = -⌊-q⌋`, with the floor as an integer division by
the positive denominator). -/
def jsCeil (q : ℚ) : ℤ := -((-q.num) / (q.den : ℤ))

/-- JavaScript `x || d` on a possibly-missing number: `undefined` and `0`
are falsy, so both fall back to the default. -/
def jsOr (x : Option ℚ) (d : ℚ) : ℚ :=
  match x with
  | some v => if v = 0 then d else v
  | Option.none => d

def maxDimOf (b : BBox) : ℚ := max b.x (max b.y b.z)

def scaleWarnA : String := "Unit scale adjusted (likely "
def scaleWarnB : String := ")"

/-- The unit-sanity loop: the first rule whose threshold the original
maximum dimension exceeds divides all three extents and fires a warning;
the maximum is computed once, before the loop. -/
def applyScaleRules (bbox : BBox) (maxDim : ℚ) : List ScaleRule → BBox × List String
  | [] => (bbox, [])
  | r :: rest =>
    if maxDim > r.ifMaxDimGreaterThan then
      (⟨bbox.x / r.scaleDivisor, bbox.y / r.scaleDivisor, bbox.z / r.scaleDivisor⟩,
       [scaleWarnA ++ r.label ++ scaleWarnB])
    else applyScaleRules bbox maxDim rest

def bboxAfterScaling (pm : PricingMatrix) (bbox : BBox) : BBox × List String :=
  if pm.unitSanity.enabled then applyScaleRules bbox (maxDimOf bbox) pm.unitSanity.scaleRules
  else (bbox, [])

def missingCapsA : String := "Printer "
def missingCapsB : String := " is missing capabilities data and was excluded."

/-- The capability-domination test, mirroring the filter's early returns. -/
def printerPasses (reqs : FilamentRequirements) (caps : Capabilities) : Bool :=
  if caps.maxNozzleC < reqs.minNozzleC then false
  else if caps.maxBedC < reqs.minBedC then false
  else if reqs.requiresEnclosure = true ∧ caps.hasEnclosure = false then false
  else if reqs.requiresHeatedChamber = true ∧ caps.hasHeatedChamber = false then false
  else if reqs.requiresChamberTempC > 0 ∧ caps.heatedChamberC < reqs.requiresChamberTempC then false
  else if reqs.requiresHardenedNozzle = true ∧ caps.hasHardenedNozzle = false then false
  else true

/-- The compatibility filter pass, which also pushes a warning for each
printer whose capabilities block is missing. -/
def compatScan (reqs : FilamentRequirements) :
    List (String × Printer) → List (String × Printer) × List String
  | [] => ([], [])
  | e :: rest =>
    let r := compatScan reqs rest
    match e.2.capabilities with
    | Option.none => (r.1, (missingCapsA ++ e.2.label ++ missingCapsB) :: r.2)
    | some caps => if printerPasses reqs caps then (e :: r.1, r.2) else (r.1, r.2)

/-- The build-volume fit test `buildVolume >= bbox` on all three axes. -/
def fitsBuild (bv : BBox) (bbox : BBox) : Bool :=
  decide (bbox.x ≤ bv.x ∧ bbox.y ≤ bv.y ∧ bbox.z ≤ bv.z)

/-- Hourly rate for the sort comparator: `rates[nozzle] || Infinity`, where
a missing entry and a zero rate are both falsy; `Option.none` is the
`Infinity` fallback. -/
def rateVal (p : Printer) (nozzle : String) : Option ℚ :=
  match List.lookup nozzle p.hourlyRates_withShippingEmbedded with
  | some r => if r = 0 then Option.none else some r
  | Option.none => Option.none

/-- Strict comparison with `Option.none` as positive infinity. -/
def optLt : Option ℚ → Option ℚ → Bool
  | some a, some b => decide (a < b)
  | some _, Option.none => true
  | Option.none, _ => false

/-- First element of a stable sort by the strict comparator `better`: scan
keeping the incumbent on ties, so the earliest best element wins, exactly
as `array.sort(cmp)[0]` with a stable sort. -/
def pickBy {α : Type} (better : α → α → Bool) : List α → Option α
  | [] => Option.none
  | x :: xs => some (xs.foldl (fun b y => if better y b then y else b) x)

def xyArea (p : Printer) : ℚ := p.buildVolume_mm.x * p.buildVolume_mm.y

def rateBetter (nozzle : String) (a b : String × Printer) : Bool :=
  optLt (rateVal a.2 nozzle) (rateVal b.2 nozzle)

def areaBetter (a b : String × Printer) : Bool := decide (xyArea b.2 < xyArea a.2)

structure Selection where
  key : String
  printer : Printer
  autoSel : Bool
  warnings : List String
  deriving DecidableEq, Repr

def userWarnA : String := "Your selected printer does not support "
def userWarnB : String := " or its requirements. Auto-selecting a suitable printer."

/-- The auto-selection step: among compatible printers that fit the box
unrotated, the cheapest hourly rate for the nozzle; if none fits, the
largest X*Y build area among all compatible printers. -/
def autoPick (nozzle : String) (compat : List (String × Printer)) (bbox : BBox)
    (warnings0 : List String) : Option Selection :=
  let eligible := compat.filter (fun e => fitsBuild e.2.buildVolume_mm bbox)
  match pickBy (rateBetter nozzle) eligible with
  | some e => some ⟨e.1, e.2, true, warnings0⟩
  | Option.none =>
    match pickBy areaBetter compat with
    | some e => some ⟨e.1, e.2, true, warnings0⟩
    | Option.none => Option.none

/-- Printer selection: honor a compatible user choice when auto-selection
is off; a named-but-incompatible printer downgrades to auto-selection with
a warning; auto-selection off with no named printer leaves no selection
(the code then throws). -/
def selectPrinter (nozzle : String) (autoSel0 : Bool) (userKey : Option String)
    (material : String) (compat : List (String × Printer)) (bbox : BBox) : Option Selection :=
  match autoSel0, userKey with
  | false, some k =>
    match compat.find? (fun e => decide (e.1 = k)) with
    | some e => some ⟨e.1, e.2, false, []⟩
    | Option.none => autoPick nozzle compat bbox [userWarnA ++ material ++ userWarnB]
  | false, Option.none => Option.none
  | true, _ => autoPick nozzle compat bbox []

/-- Segmentation tier from the segment count. -/
def tierOf (segmentCountEstimate : ℤ) : SegTier :=
  if segmentCountEstimate > 12 then SegTier.heavy
  else if segmentCountEstimate > 1 then SegTier.moderate
  else SegTier.none

def segTierMultiplier (pm : PricingMatrix) (t : SegTier) : ℚ :=
  pm.segmentation.segmentationModeMultipliers.get t

def complexityMultiplier (pm : PricingMatrix) (triangles : ℕ) : ℚ :=
  if (triangles : ℚ) > pm.multipliers.complexity.thresholdHigh then pm.multipliers.complexity.multHigh
  else if (triangles : ℚ) > pm.multipliers.complexity.thresholdMedium then pm.multipliers.complexity.multMedium
  else pm.multipliers.complexity.multLow

def longJobFactor (pm : PricingMatrix) (hours : ℚ) : ℚ :=
  if hours > pm.multipliers.longJob.thresholdHours then pm.multipliers.longJob.multiplier else 1

/-- The capped risk model:
`max(minRisk, min(base * (baseRiskPercent + tierBump[tier]), base * capPercentOfBase))`. -/
def riskCostCalc (pm : PricingMatrix) (machineCost segmentationCost : ℚ) (tier : SegTier) : ℚ :=
  let baseCostForRisk := machineCost + segmentationCost
  let riskPercent := pm.riskModel.baseRiskPercent + pm.riskModel.tierBump.get tier
  let maxRisk := baseCostForRisk * pm.riskModel.capPercentOfBase
  let rawRisk := baseCostForRisk * riskPercent
  max pm.riskModel.minRisk (min rawRisk maxRisk)

/-- Per-axis segment counts for the selected printer: efficiency-shrunk
build extents, the vertical axis further softened by the literal `0.6`;
total is the product, forced to at least 2 when segmentation is required. -/
def bedCycleSegCount (pm : PricingMatrix) (bv : BBox) (bbox : BBox) : ℤ :=
  let eff := pm.segmentation.efficiency
  let sx : ℤ := jsCeil (bbox.x / (bv.x * eff))
  let sy : ℤ := jsCeil (bbox.y / (bv.y * eff))
  let sz : ℤ := jsCeil (bbox.z / (bv.z * eff * (3/5)))
  max 2 (sx * sy * max 1 sz)

/-- The per-mode cost/segment numbers and the warnings the branch pushes. -/
structure CostCore where
  machineCost : ℚ
  segmentationCost : ℚ
  riskCost : ℚ
  segmentCountEstimate : ℤ
  bedCyclesEstimate : ℤ
  finalEstimatedHours : ℚ
  segmentationTier : SegTier
  warnings : List String
  deriving DecidableEq, Repr

def largeAssemblyWarn : String := "Large assembly detected: bed-cycle mode enforced."
def segRequiredWarn : String := "Model exceeds build volume: segmentation required."
def heavySegWarn : String := "Heavy segmentation: increased seam count and extended lead time."
def highSegA : String := "High segment count ("
def highSegB : String := ") for "
def highSegC : String := ". Manual review may be required."

/-- The Bed-Cycle branch.  A nozzle size missing from the bed-cycle rate
table gives `NaN` costs in the source; the `getD 0` here is a placeholder
for that unrepresentable value, and every theorem that depends on the rate
assumes the lookup succeeds. -/
def bedCycleCore (pm : PricingMatrix) (key : String) (printer : Printer) (nozzle : String)
    (bbox : BBox) (segmentationRequired : Bool) : CostCore :=
  let segmentCountEstimate : ℤ :=
    if segmentationRequired then bedCycleSegCount pm printer.buildVolume_mm bbox else 1
  let bedCyclesEstimate := segmentCountEstimate
  let finalEstimatedHours : ℚ := (bedCyclesEstimate : ℚ) * printer.bedCycleHours
  let maxSegments : ℚ := jsOr (List.lookup key pm.segmentation.maxAutoSegments) 999
  let segmentationTier := tierOf segmentCountEstimate
  let bedCycleRate : ℚ := (List.lookup nozzle printer.bedCycleRates_withShippingEmbedded).getD 0
  let machineCost := (bedCyclesEstimate : ℚ) * bedCycleRate
  let segmentationCost := (segmentCountEstimate : ℚ) * pm.segmentation.seamsPerSegmentDefault *
    pm.segmentation.bondingLaborPerSeam
  let riskCost := riskCostCalc pm machineCost segmentationCost segmentationTier
  { machineCost := machineCost
    segmentationCost := segmentationCost
    riskCost := riskCost
    segmentCountEstimate := segmentCountEstimate
    bedCyclesEstimate := bedCyclesEstimate
    finalEstimatedHours := finalEstimatedHours
    segmentationTier := segmentationTier
    warnings := [largeAssemblyWarn]
      ++ (if segmentationRequired then [segRequiredWarn] else [])
      ++ (if (segmentCountEstimate : ℚ) > maxSegments then
            [highSegA ++ toString segmentCountEstimate ++ highSegB ++ printer.label ++ highSegC]
          else [])
      ++ (if segmentationTier = SegTier.heavy then [heavySegWarn] else []) }

/-- The Hourly branch (same `getD 0` caveat for a missing rate). -/
def hourlyCore (printer : Printer) (nozzle : String) (estimatedHours : ℚ) : CostCore :=
  let hourlyRate : ℚ := (List.lookup nozzle printer.hourlyRates_withShippingEmbedded).getD 0
  { machineCost := estimatedHours * hourlyRate
    segmentationCost := 0
    riskCost := 0
    segmentCountEstimate := 1
    bedCyclesEstimate := 0
    finalEstimatedHours := estimatedHours
    segmentationTier := SegTier.none
    warnings := [] }

/-- Fleet size feeding lead time: the selected printer's own count (default
1) when the user picked the printer, the sum over all compatible printers
(defaults 0) under auto-selection, and 0 in Hourly mode. -/
def eligibleFleetCount (pm : PricingMatrix) (isBed : Bool) (autoSel : Bool)
    (selectedKey : String) (compat : List (String × Printer)) : ℚ :=
  if isBed then
    if autoSel = false then jsOr (List.lookup selectedKey pm.printer_fleet) 1
    else compat.foldl (fun acc e => acc + jsOr (List.lookup e.1 pm.printer_fleet) 0) 0
  else 0

structure LeadTimeDays where
  min : ℚ
  max : ℚ
  deriving DecidableEq, Repr

/-- The lead-time computation; `segmentationExtraDays[tier] || 0` is the
identity on a present numeric entry (and `0` stays `0`). -/
def leadTimeCalc (pm : PricingMatrix) (isBed : Bool) (fleet : ℚ) (bedCycles : ℤ)
    (finalHours : ℚ) (tier : SegTier) : LeadTimeDays :=
  let cyclesPerDay : ℚ := max 1 (fleet * pm.leadTime.utilizationFactor)
  let baseDays : ℤ := if isBed then jsCeil ((bedCycles : ℚ) / cyclesPerDay) else jsCeil (finalHours / 12)
  let segmentationAddDays : ℚ := pm.leadTime.segmentationExtraDays.get tier
  let minLead : ℚ := max pm.leadTime.minDays ((baseDays : ℚ) + segmentationAddDays)
  let maxLead : ℤ := jsCeil (minLead * (7/5))
  { min := min minLead pm.leadTime.maxDaysCap, max := min (maxLead : ℚ) pm.leadTime.maxDaysCap }

structure CostBreakdown where
  machine : ℚ
  material : ℚ
  segmentation : ℚ
  shippingEmbedded : ℚ
  risk : ℚ
  total : ℚ
  deriving DecidableEq, Repr

structure QuoteOutput where
  mode : String
  jobScale : String
  selectedPrinterKey : String
  selectedNozzle : String
  selectedFilament : String
  bbox_mm : BBox
  volume_cm3 : ℚ
  segmentCountEstimate : ℤ
  bedCyclesEstimate : ℤ
  estimatedHours : ℚ
  segmentationTier : SegTier
  leadTimeDays : LeadTimeDays
  costBreakdown : CostBreakdown
  warnings : List String
  deriving DecidableEq, Repr

structure QuoteGeneratorInput where
  metrics : MeshMetrics
  material : String
  nozzleSize : String
  autoPrinterSelection : Bool
  selectedPrinterKey : Option String
  deriving DecidableEq, Repr

/-- The external Estimator baseline `{printTimeHours, materialGrams}`. -/
structure EstimationOutput where
  printTimeHours : ℚ
  materialGrams : ℚ
  deriving DecidableEq, Repr

def modeBedCycle : String := "Bed-Cycle Mode"
def modeHourly : String := "Hourly"
def jobScaleLargeStr : String := "Large Assembly"
def jobScaleSmallStr : String := "Small Part"
def jobScaleMediumStr : String := "Medium Part"

/-- Mode decision: segmentation required, or max dimension over the literal
380, or baseline hours at or above the large-assembly threshold. -/
def isBedCycleMode (pm : PricingMatrix) (segmentationRequired : Bool) (maxDim hours : ℚ) : Bool :=
  segmentationRequired || decide (maxDim > 380) ||
    decide (hours ≥ pm.jobScaleRules.largeAssembly.minHours)

def jobScaleOf (pm : PricingMatrix) (isBed : Bool) (maxDim hours : ℚ) : String :=
  if isBed then jobScaleLargeStr
  else if maxDim ≤ pm.jobScaleRules.smallPart.maxDim_mm ∧ hours < pm.jobScaleRules.smallPart.maxHours then
    jobScaleSmallStr
  else jobScaleMediumStr

def complexityHighWarn : String := "Complexity high: manual review recommended."
def longJobWarn : String := "Long job multiplier applied due to extended print time."
def nonWatertightWarn : String := "Non-watertight mesh may affect volume/time estimates and print quality."

/-- Everything after printer selection: segmentation check for the selected
printer, mode, per-mode costs, material cost, multipliers, lead time and
the assembled output record. -/
def buildQuote (pm : PricingMatrix) (input : QuoteGeneratorInput) (est : EstimationOutput)
    (filament : Filament) (compat : List (String × Printer)) (sel : Selection)
    (bbox : BBox) (warnings0 : List String) : QuoteOutput :=
  let segmentationRequired : Bool := !(fitsBuild sel.printer.buildVolume_mm bbox)
  let maxDim := maxDimOf bbox
  let isBed := isBedCycleMode pm segmentationRequired maxDim est.printTimeHours
  let core :=
    if isBed then bedCycleCore pm sel.key sel.printer input.nozzleSize bbox segmentationRequired
    else hourlyCore sel.printer input.nozzleSize est.printTimeHours
  let materialCost := est.materialGrams * filament.sellPricePerGram
  let subtotal := (core.machineCost + core.segmentationCost + core.riskCost)
      * segTierMultiplier pm core.segmentationTier
      * complexityMultiplier pm input.metrics.triangles
      * longJobFactor pm core.finalEstimatedHours
  let totalCost := subtotal + materialCost
  let fleet := eligibleFleetCount pm isBed sel.autoSel sel.key compat
  let lead := leadTimeCalc pm isBed fleet core.bedCyclesEstimate core.finalEstimatedHours
    core.segmentationTier
  { mode := if isBed then modeBedCycle else modeHourly
    jobScale := jobScaleOf pm isBed maxDim est.printTimeHours
    selectedPrinterKey := sel.key
    selectedNozzle := input.nozzleSize
    selectedFilament := input.material
    bbox_mm := bbox
    volume_cm3 := input.metrics.volume_mm3 / 1000
    segmentCountEstimate := core.segmentCountEstimate
    bedCyclesEstimate := core.bedCyclesEstimate
    estimatedHours := core.finalEstimatedHours
    segmentationTier := core.segmentationTier
    leadTimeDays := lead
    costBreakdown :=
      { machine := core.machineCost
        material := materialCost
        segmentation := core.segmentationCost
        shippingEmbedded := core.finalEstimatedHours * pm.embeddedPerHour
        risk := core.riskCost
        total := totalCost }
    warnings := warnings0 ++ sel.warnings ++ core.warnings
      ++ (if (input.metrics.triangles : ℚ) > pm.multipliers.complexity.thresholdHigh then
            [complexityHighWarn] else [])
      ++ (if core.finalEstimatedHours > pm.multipliers.longJob.thresholdHours then
            [longJobWarn] else [])
      ++ (if input.metrics.watertight_est = false then [nonWatertightWarn] else []) }

def filamentErrA : String := "Filament requirements not found for "
def filamentErrB : String := ". The selected material may not be configured for this system."
def noPrinterErrA : String := "No available printer is compatible with the requirements for "
def noPrinterErrB : String := "."
def selectionErr : String := "Could not determine a suitable printer for the job."

/-- Source `quoteGenerator`, with the external estimation supplied as
`est`.  The unit-sanity rescale happens first (and, in the source, writes
through to the caller's record — see `quoteGeneratorRun`). -/
def quoteGenerator (pm : PricingMatrix) (input : QuoteGeneratorInput) (est : EstimationOutput) :
    Except String QuoteOutput :=
  let scaled := bboxAfterScaling pm input.metrics.bbox_mm
  match List.lookup input.material pm.filaments with
  | Option.none => Except.error (filamentErrA ++ input.material ++ filamentErrB)
  | some filament =>
    let scan := compatScan filament.requirements pm.printers
    if scan.1.isEmpty then Except.error (noPrinterErrA ++ input.material ++ noPrinterErrB)
    else
      match selectPrinter input.nozzleSize input.autoPrinterSelection input.selectedPrinterKey
          input.material scan.1 scaled.1 with
      | Option.none => Except.error selectionErr
      | some sel =>
        Except.ok (buildQuote pm input est filament scan.1 sel scaled.1 (scaled.2 ++ scan.2))

/-- The call together with the post-call state of the caller's metrics
record: the unit-sanity step divides `metrics.bbox_mm` in place, the only
write `quoteGenerator` performs on its input. -/
def quoteGeneratorRun (pm : PricingMatrix) (input : QuoteGeneratorInput) (est : EstimationOutput) :
    Except String QuoteOutput × MeshMetrics :=
  (quoteGenerator pm input est,
   { input.metrics with bbox_mm := (bboxAfterScaling pm input.metrics.bbox_mm).1 })

/-! Specification-side definitions, written from the spec's wording and
compared against the embedded code. -/

/-- Occurrences of the undirected edge `{a, b}` over all triangle edge
slots, written directly from the spec's order-independent wording. -/
def undirEdgeCount (tris : List Triangle) (a b : Vec3) : ℕ :=
  ((tris.map edgesOfTriangle).flatten).countP
    (fun e => decide ((e.1 = a ∧ e.2 = b) ∨ (e.1 = b ∧ e.2 = a)))

/-- Spec-side OBJ accounting: the vertex pool, the total triangles a fan
triangulation must produce (`N - 2` per face with `N` resolvable vertices),
and whether any face had more than three resolvable vertices. -/
structure ObjSpecAcc where
  pool : List Vec3
  triCount : ℕ
  sawNgon : Bool
  deriving Repr

def objSpecStep (st : ObjSpecAcc) (line : List Char) : ObjSpecAcc :=
  match wsSplit line with
  | [] => st
  | t :: rest =>
    if t = vTok then
      { st with pool := st.pool ++
          [⟨pf (rest.getD 0 []), pf (rest.getD 1 []), pf (rest.getD 2 [])⟩] }
    else if t = fTok then
      let n := (resolveFaceRefs st.pool rest).length
      { st with triCount := st.triCount + (n - 2), sawNgon := st.sawNgon || decide (n > 3) }
    else st

def objSpec (text : String) : ObjSpecAcc :=
  (splitLines text.data).foldl objSpecStep ⟨[], 0, false⟩

/-- The six axis permutations of a box (spec §4.2 step 3). -/
def specPerms (b : BBox) : List BBox :=
  [⟨b.x, b.y, b.z⟩, ⟨b.x, b.z, b.y⟩, ⟨b.y, b.x, b.z⟩,
   ⟨b.y, b.z, b.x⟩, ⟨b.z, b.x, b.y⟩, ⟨b.z, b.y, b.x⟩]

/-- Spec §4.2 step 4 segment formula for a fixed orientation: per-axis
`ceil(dim / (build * efficiency))`, vertical axis softened by the
configured `0.6`, product floored at 1. -/
def specSegmentsForOrientation (pm : PricingMatrix) (b bv : BBox) : ℤ :=
  let eff := pm.segmentation.efficiency
  let sx : ℤ := jsCeil (b.x / (bv.x * eff))
  let sy : ℤ := jsCeil (b.y / (bv.y * eff))
  let sz : ℤ := jsCeil (b.z / (bv.z * eff * (3/5)))
  max 1 (sx * sy * max 1 sz)

/-- Minimum achievable segment count over all six orientations. -/
def specMinSegments (pm : PricingMatrix) (bbox bv : BBox) : ℤ :=
  match (specPerms bbox).map (fun b => specSegmentsForOrientation pm b bv) with
  | [] => 1
  | s :: rest => rest.foldl min s

/-- The claimed auto-selection rule: minimize the orientation-minimized
segment count over compatible printers, break ties by the lowest hourly
rate for the requested nozzle. -/
def specSelBetter (pm : PricingMatrix) (nozzle : String) (bbox : BBox)
    (a b : String × Printer) : Bool :=
  let sa := specMinSegments pm bbox a.2.buildVolume_mm
  let sb := specMinSegments pm bbox b.2.buildVolume_mm
  if sa < sb then true
  else if sa = sb then optLt (rateVal a.2 nozzle) (rateVal b.2 nozzle)
  else false

def specAutoSelectPrinter (pm : PricingMatrix) (nozzle : String)
    (compat : List (String × Printer)) (bbox : BBox) : Option String :=
  (pickBy (specSelBetter pm nozzle bbox) compat).map (fun e => e.1)

/-! Result extractors and concrete fixtures used by the closed theorems. -/

def defaultQuote : QuoteOutput :=
  { mode := emptyStr, jobScale := emptyStr, selectedPrinterKey := emptyStr,
    selectedNozzle := emptyStr, selectedFilament := emptyStr, bbox_mm := ⟨0, 0, 0⟩,
    volume_cm3 := 0, segmentCountEstimate := 0, bedCyclesEstimate := 0, estimatedHours := 0,
    segmentationTier := SegTier.none, leadTimeDays := ⟨0, 0⟩,
    costBreakdown := ⟨0, 0, 0, 0, 0, 0⟩, warnings := [] }

/-- Successful payload of a quote computation (`defaultQuote` on error). -/
def okOf (r : Except String QuoteOutput) : QuoteOutput :=
  match r with
  | Except.ok q => q
  | Except.error _ => defaultQuote

/-- The `parse_ms` of an analyzer result, `-1` on error. -/
def msOf (r : Except String MeshMetrics) : ℤ :=
  match r with
  | Except.ok m => m.parse_ms
  | Except.error _ => -1

def noz04 : String := "0.4"
def matPLA : String := "PLA"

def capsAll : Capabilities := ⟨500, 200, true, true, 500, true⟩
def reqsNone : FilamentRequirements := ⟨0, 0, false, false, 0, false⟩
def filPLA : Filament := ⟨reqsNone, 1/10⟩

def mkPrinter (label : String) (bv : BBox) (hr br : ℚ) : Printer :=
  ⟨label, bv, some capsAll, [(noz04, hr)], [(noz04, br)], 8⟩

/-- A small pricing matrix with neutral multipliers; `minRisk` varies per
fixture. -/
def basePM (printers : List (String × Printer)) (minRisk : ℚ) : PricingMatrix :=
  { unitSanity := ⟨false, []⟩
    printers := printers
    filaments := [(matPLA, filPLA)]
    jobScaleRules := ⟨⟨180, 24⟩, ⟨60⟩⟩
    segmentation := ⟨1, 1, 1, [], ⟨1, 1, 1⟩⟩
    riskModel := ⟨1/10, ⟨0, 0, 0⟩, 1/4, minRisk⟩
    multipliers := ⟨⟨500000, 1000000, 1, 1, 1⟩, ⟨1000000, 1⟩⟩
    printer_fleet := []
    leadTime := ⟨1, ⟨0, 1, 3⟩, 1, 30⟩
    embeddedPerHour := 0 }

def mkMetrics (bbox : BBox) : MeshMetrics :=
  { format := fmtStl, units := unitsAssumedMm, triangles := 100, bbox_mm := bbox,
    surface_area_mm2 := 0, volume_mm3 := 0, watertight_est := true, notes := [],
    file_bytes := 0, parse_ms := 0 }

def mkInput (bbox : BBox) : QuoteGeneratorInput :=
  ⟨mkMetrics bbox, matPLA, noz04, true, Option.none⟩

def estBase : EstimationOutput := ⟨5, 10⟩

def keyP : String := "P"
def keyA : String := "A"
def keyB : String := "B"

/-- Fixture for the risk cap: a huge `minRisk` against a small base cost. -/
def pmRisk : PricingMatrix := basePM [(keyP, mkPrinter keyP ⟨100, 100, 100⟩ 5 1)] 100

def inRisk : QuoteGeneratorInput := mkInput ⟨200, 100, 100⟩

/-- Fixture for mode selection: everything fits, but the baseline hours
exceed the large-assembly threshold. -/
def pmFits : PricingMatrix := basePM [(keyP, mkPrinter keyP ⟨500, 500, 500⟩ 5 1)] 1

def inFits : QuoteGeneratorInput := mkInput ⟨50, 50, 50⟩

def estLong : EstimationOutput := ⟨2000, 10⟩

/-- Fixture for auto-selection: printer `A` admits a one-segment rotated
orientation, printer `B` has the larger X*Y bed; neither fits unrotated. -/
def pmSel : PricingMatrix :=
  basePM [(keyA, mkPrinter keyA ⟨400, 100, 200⟩ 5 1), (keyB, mkPrinter keyB ⟨250, 250, 250⟩ 5 1)] 1

def inSel : QuoteGeneratorInput := mkInput ⟨100, 100, 400⟩

def labelCm : String := "cm"

/-- Fixture for the frame claim: a unit-sanity rule that fires. -/
def pmScale : PricingMatrix :=
  { basePM [(keyP, mkPrinter keyP ⟨500, 500, 500⟩ 5 1)] 1 with
    unitSanity := ⟨true, [⟨1000, 10, labelCm⟩]⟩ }

def inScale : QuoteGeneratorInput := mkInput ⟨2000, 100, 100⟩

/-- Fixture for witnesses that need a clean Hourly quote. -/
def pmPlain : PricingMatrix := basePM [(keyP, mkPrinter keyP ⟨500, 500, 500⟩ 5 1)] 1

def inPlain : QuoteGeneratorInput := mkInput ⟨50, 50, 50⟩

def fileCube : String := "cube.stl"

/-- An 84-byte all-zero buffer: a valid binary STL with zero triangles. -/
def buf84 : List ℕ := List.replicate 84 0

def noDec : List ℕ → Except String PreMetrics := fun _ => Except.error emptyStr

def sqId : ℚ → ℚ := fun q => q

def triSingle : Triangle := ⟨⟨0, 0, 0⟩, ⟨1, 0, 0⟩, ⟨0, 1, 0⟩⟩

def c000 : Vec3 := ⟨0, 0, 0⟩
def c100 : Vec3 := ⟨1, 0, 0⟩
def c010 : Vec3 := ⟨0, 1, 0⟩
def c110 : Vec3 := ⟨1, 1, 0⟩
def c001 : Vec3 := ⟨0, 0, 1⟩
def c101 : Vec3 := ⟨1, 0, 1⟩
def c011 : Vec3 := ⟨0, 1, 1⟩
def c111 : Vec3 := ⟨1, 1, 1⟩

/-- A correctly triangulated closed unit cube (12 triangles). -/
def cubeTris : List Triangle :=
  [⟨c000, c100, c110⟩, ⟨c000, c110, c010⟩,
   ⟨c001, c101, c111⟩, ⟨c001, c111, c011⟩,
   ⟨c000, c100, c101⟩, ⟨c000, c101, c001⟩,
   ⟨c010, c110, c111⟩, ⟨c010, c111, c011⟩,
   ⟨c000, c010, c011⟩, ⟨c000, c011, c001⟩,
   ⟨c100, c110, c111⟩, ⟨c100, c111, c101⟩]

/-- The `|| Infinity` rate read as a `WithTop ℚ`, for order reasoning. -/
def toWT (x : Option ℚ) : WithTop ℚ :=
  match x with
  | some a => (a : WithTop ℚ)
  | Option.none => ⊤

def defaultMeta : MeshMetrics :=
  { format := emptyStr, units := emptyStr, triangles := 0, bbox_mm := ⟨0, 0, 0⟩,
    surface_area_mm2 := 0, volume_mm3 := 0, watertight_est := false, notes := [],
    file_bytes := 0, parse_ms := 0 }

/-- Successful payload of an analyzer run (`defaultMeta` on error). -/
def okM (r : Except String MeshMetrics) : MeshMetrics :=
  match r with
  | Except.ok m => m
  | Except.error _ => defaultMeta

/-- The five bytes of `solid`. -/
def bufSolid : List ℕ := [115, 111, 108, 105, 100]

/-- A small OBJ file with one quad face (a 4-gon). -/
def objText : String := "v 0 0 0\nv 1 0 0\nv 1 1 0\nv 0 1 0\nf 1 2 3 4"

def faceLine : List Char := ['f', ' ', '1', ' ', '2', ' ', '3', ' ', '4']
def facePartsFix : List (List Char) := [['1'], ['2'], ['3'], ['4']]

def quadVerts : List Vec3 := [c000, c100, c110, c010]

def objStPre : ObjAcc := ⟨quadVerts, [], []⟩

/-! Theorems.  Helper lemmas first, then one theorem per claim (with its
witness or counterexample where required). -/

theorem vecLe_total (a b : Vec3) : vecLe a b ∨ vecLe b a := by
  unfold vecLe
  rcases lt_trichotomy a.x b.x with h | h | h
  · exact Or.inl (Or.inl h)
  · rcases lt_trichotomy a.y b.y with h2 | h2 | h2
    · exact Or.inl (Or.inr ⟨h, Or.inl h2⟩)
    · rcases le_total a.z b.z with h3 | h3
      · exact Or.inl (Or.inr ⟨h, Or.inr ⟨h2, h3⟩⟩)
      · exact Or.inr (Or.inr ⟨h.symm, Or.inr ⟨h2.symm, h3⟩⟩)
    · exact Or.inr (Or.inr ⟨h.symm, Or.inl h2⟩)
  · exact Or.inr (Or.inl h)

theorem vecLe_antisymm {a b : Vec3} (h1 : vecLe a b) (h2 : vecLe b a) : a = b := by
  unfold vecLe at h1 h2
  have hx : a.x = b.x := by
    rcases h1 with h | ⟨h, _⟩
    · rcases h2 with h2 | ⟨h2, _⟩
      · exact absurd h2 (not_lt.mpr h.le)
      · exact h2.symm
    · exact h
  have h1' : a.y < b.y ∨ (a.y = b.y ∧ a.z ≤ b.z) := by
    rcases h1 with h | ⟨_, h⟩
    · exact absurd h (by rw [hx]; exact lt_irrefl _)
    · exact h
  have h2' : b.y < a.y ∨ (b.y = a.y ∧ b.z ≤ a.z) := by
    rcases h2 with h | ⟨_, h⟩
    · exact absurd h (by rw [hx]; exact lt_irrefl _)
    · exact h
  have hy : a.y = b.y := by
    rcases h1' with h | ⟨h, _⟩
    · rcases h2' with h2 | ⟨h2, _⟩
      · exact absurd h2 (not_lt.mpr h.le)
      · exact h2.symm
    · exact h
  have hz : a.z = b.z := by
    have hza : a.z ≤ b.z := by
      rcases h1' with h | ⟨_, h⟩
      · exact absurd h (by rw [hy]; exact lt_irrefl _)
      · exact h
    have hzb : b.z ≤ a.z := by
      rcases h2' with h | ⟨_, h⟩
      · exact absurd h (by rw [hy]; exact lt_irrefl _)
      · exact h
    exact le_antisymm hza hzb
  cases a; cases b; simp_all

theorem edgeKey_comm (a b : Vec3) : edgeKey a b = edgeKey b a := by
  unfold edgeKey
  by_cases h1 : vecLe a b <;> by_cases h2 : vecLe b a <;> simp only [h1, h2, if_pos, if_neg,
    if_true, if_false]
  · have h := vecLe_antisymm h1 h2
    subst h; rfl
  · rcases vecLe_total a b with h | h
    · exact absurd h h1
    · exact absurd h h2

theorem edgeKey_eq_iff {x y a b : Vec3} :
    edgeKey x y = edgeKey a b ↔ ((x = a ∧ y = b) ∨ (x = b ∧ y = a)) := by
  constructor
  · intro h
    unfold edgeKey at h
    by_cases h1 : vecLe x y <;> by_cases h2 : vecLe a b <;>
      simp only [h1, h2, if_true, if_false, Prod.mk.injEq] at h <;> tauto
  · intro h
    rcases h with ⟨rfl, rfl⟩ | ⟨rfl, rfl⟩
    · rfl
    · exact edgeKey_comm x y

theorem count_map_edgeKey (l : List (Vec3 × Vec3)) (a b : Vec3) :
    (l.map (fun e => edgeKey e.1 e.2)).count (edgeKey a b) =
      l.countP (fun e => decide ((e.1 = a ∧ e.2 = b) ∨ (e.1 = b ∧ e.2 = a))) := by
  induction l with
  | nil => rfl
  | cons e t ih =>
    simp only [List.map_cons, List.count_cons, List.countP_cons, ih]
    congr 1
    by_cases hp : (e.1 = a ∧ e.2 = b) ∨ (e.1 = b ∧ e.2 = a)
    · rw [if_pos (by simpa using (edgeKey_eq_iff.mpr hp)), if_pos (by simpa using hp)]
    · rw [if_neg (by simpa using fun hk => hp (edgeKey_eq_iff.mp hk)),
        if_neg (by simpa using hp)]

theorem watertightCheck_iff (tris : List Triangle) :
    watertightCheck tris = true ↔
      ∀ a b : Vec3, undirEdgeCount tris a b = 0 ∨ undirEdgeCount tris a b = 2 := by
  unfold watertightCheck undirEdgeCount edgeKeyList
  rw [List.all_eq_true]
  constructor
  · intro h a b
    by_cases h0 : ((tris.map edgesOfTriangle).flatten).countP
        (fun e => decide ((e.1 = a ∧ e.2 = b) ∨ (e.1 = b ∧ e.2 = a))) = 0
    · exact Or.inl h0
    · refine Or.inr ?_
      rw [← count_map_edgeKey]
      have hpos : 0 < ((tris.map edgesOfTriangle).flatten).countP
          (fun e => decide ((e.1 = a ∧ e.2 = b) ∨ (e.1 = b ∧ e.2 = a))) := Nat.pos_of_ne_zero h0
      obtain ⟨e, he, hp⟩ := List.countP_pos_iff.mp hpos
      have hk : edgeKey e.1 e.2 = edgeKey a b := edgeKey_eq_iff.mpr (by simpa using hp)
      have hmem : edgeKey a b ∈ (tris.map edgesOfTriangle).flatten.map
          (fun e => edgeKey e.1 e.2) := by
        rw [← hk]
        exact List.mem_map_of_mem _ he
      simpa using h _ hmem
  · intro hall k hk
    rw [decide_eq_true_eq]
    obtain ⟨e, he, hke⟩ := List.mem_map.mp hk
    subst hke
    rw [count_map_edgeKey]
    have hpos : 0 < ((tris.map edgesOfTriangle).flatten).countP
        (fun x => decide ((x.1 = e.1 ∧ x.2 = e.2) ∨ (x.1 = e.2 ∧ x.2 = e.1))) :=
      List.countP_pos_iff.mpr ⟨e, he, by simp⟩
    rcases hall e.1 e.2 with h0 | h2
    · exact absurd h0 (Nat.pos_iff_ne_zero.mp hpos)
    · exact h2

theorem calculateMetrics_watertight (sq : ℚ → ℚ) (tris : List Triangle) (ucf : ℚ) :
    (calculateMetricsFromTriangles sq tris ucf).watertight_est = watertightCheck tris := by
  cases tris with
  | nil => rfl
  | cons t ts => rfl

theorem calculateMetrics_triangles (sq : ℚ → ℚ) (tris : List Triangle) (ucf : ℚ) :
    (calculateMetricsFromTriangles sq tris ucf).triangles = tris.length := by
  cases tris with
  | nil => rfl
  | cons t ts => rfl

/-- C6: the geometry reducer reports `watertight_est = true` exactly when
every undirected vertex-pair edge occurs either not at all or exactly twice
over all triangle edges; a single isolated triangle is not watertight and a
correctly triangulated closed cube is. -/
theorem watertight_edge_characterization :
    (∀ (sq : ℚ → ℚ) (ucf : ℚ) (tris : List Triangle),
      (calculateMetricsFromTriangles sq tris ucf).watertight_est = true ↔
        ∀ a b : Vec3, undirEdgeCount tris a b = 0 ∨ undirEdgeCount tris a b = 2) ∧
    (calculateMetricsFromTriangles sqId [triSingle] 1).watertight_est = false ∧
    (calculateMetricsFromTriangles sqId cubeTris 1).watertight_est = true := by
  refine ⟨fun sq ucf tris => ?_, ?_, ?_⟩
  · rw [calculateMetrics_watertight]
    exact watertightCheck_iff tris
  · rw [calculateMetrics_watertight]
    decide
  · rw [calculateMetrics_watertight]
    decide

theorem fanAux_length (v0 : Vec3) (l : List Vec3) : (fanAux v0 l).length = l.length - 1 := by
  induction l with
  | nil => rfl
  | cons a t ih =>
    cases t with
    | nil => rfl
    | cons b r =>
      simp only [fanAux, List.length_cons] at ih ⊢
      omega

theorem fanTriangulate_length (fv : List Vec3) :
    (fanTriangulate fv).length = fv.length - 2 := by
  cases fv with
  | nil => rfl
  | cons v0 rest =>
    simp only [fanTriangulate, fanAux_length, List.length_cons]
    omega

theorem fanTriangulate_short {fv : List Vec3} (h : ¬ fv.length > 2) :
    fanTriangulate fv = [] := by
  match fv with
  | [] => rfl
  | [_] => rfl
  | [_, _] => rfl
  | _ :: _ :: _ :: _ =>
    exfalso
    apply h
    simp only [List.length_cons, gt_iff_lt]
    omega

theorem objStep_spec (line : List Char) (st : ObjAcc) (sp : ObjSpecAcc)
    (hv : st.vertices = sp.pool)
    (ht : st.tris.length = sp.triCount)
    (hn : st.notes.count ngonNote = (if sp.sawNgon then 1 else 0))
    (hc : st.notes.contains ngonNote = sp.sawNgon) :
    (objStep st line).vertices = (objSpecStep sp line).pool ∧
    (objStep st line).tris.length = (objSpecStep sp line).triCount ∧
    (objStep st line).notes.count ngonNote =
      (if (objSpecStep sp line).sawNgon then 1 else 0) ∧
    (objStep st line).notes.contains ngonNote = (objSpecStep sp line).sawNgon := by
  obtain ⟨sv, stris, snotes⟩ := st
  obtain ⟨pool, tcount, saw⟩ := sp
  dsimp only at hv ht hn hc
  subst hv
  subst ht
  unfold objStep objSpecStep
  cases hw : wsSplit line with
  | nil => exact ⟨rfl, rfl, hn, hc⟩
  | cons t parts =>
    dsimp only
    by_cases hvt : t = vTok
    · refine ⟨?_, ?_, ?_, ?_⟩ <;> simp only [if_pos hvt]
      · exact hn
      · exact hc
    · by_cases hft : t = fTok
      · by_cases hlen : (resolveFaceRefs sv parts).length > 2
        · refine ⟨?_, ?_, ?_, ?_⟩ <;> simp only [if_neg hvt, if_pos hft, if_pos hlen]
          · simp only [List.length_append, fanTriangulate_length]
          · by_cases hng : (resolveFaceRefs sv parts).length > 3
            · cases hsaw : saw with
              | true =>
                rw [hsaw] at hc hn
                have hcond : ¬ ((resolveFaceRefs sv parts).length > 3 ∧
                    snotes.contains ngonNote = false) := by
                  intro hcc
                  rw [hc] at hcc
                  exact absurd hcc.2 (by simp)
                rw [if_neg hcond]
                simpa [hng] using hn
              | false =>
                rw [hsaw] at hc hn
                rw [if_pos ⟨hng, hc⟩, List.count_append]
                simpa [hng] using hn
            · have hcond : ¬ ((resolveFaceRefs sv parts).length > 3 ∧
                  snotes.contains ngonNote = false) := fun hcc => hng hcc.1
              rw [if_neg hcond]
              simpa [hng] using hn
          · by_cases hng : (resolveFaceRefs sv parts).length > 3
            · cases hsaw : saw with
              | true =>
                rw [hsaw] at hc
                have hcond : ¬ ((resolveFaceRefs sv parts).length > 3 ∧
                    snotes.contains ngonNote = false) := by
                  intro hcc
                  rw [hc] at hcc
                  exact absurd hcc.2 (by simp)
                rw [if_neg hcond]
                simpa [hng] using hc
              | false =>
                rw [hsaw] at hc
                rw [if_pos ⟨hng, hc⟩]
                simp [hng, ngonNote]
            · have hcond : ¬ ((resolveFaceRefs sv parts).length > 3 ∧
                  snotes.contains ngonNote = false) := fun hcc => hng hcc.1
              rw [if_neg hcond]
              simpa [hng] using hc
        · have hng : ¬ (resolveFaceRefs sv parts).length > 3 := by omega
          refine ⟨?_, ?_, ?_, ?_⟩ <;> simp only [if_neg hvt, if_pos hft, if_neg hlen]
          · omega
          · simpa [hng] using hn
          · simpa [hng] using hc
      · refine ⟨?_, ?_, ?_, ?_⟩ <;> simp only [if_neg hvt, if_neg hft]
        · exact hn
        · exact hc

theorem objFold_spec (lines : List (List Char)) (st : ObjAcc) (sp : ObjSpecAcc)
    (hv : st.vertices = sp.pool)
    (ht : st.tris.length = sp.triCount)
    (hn : st.notes.count ngonNote = (if sp.sawNgon then 1 else 0))
    (hc : st.notes.contains ngonNote = sp.sawNgon) :
    (lines.foldl objStep st).vertices = (lines.foldl objSpecStep sp).pool ∧
    (lines.foldl objStep st).tris.length = (lines.foldl objSpecStep sp).triCount ∧
    (lines.foldl objStep st).notes.count ngonNote =
      (if (lines.foldl objSpecStep sp).sawNgon then 1 else 0) ∧
    (lines.foldl objStep st).notes.contains ngonNote =
      (lines.foldl objSpecStep sp).sawNgon := by
  induction lines generalizing st sp with
  | nil => exact ⟨hv, ht, hn, hc⟩
  | cons line rest ih =>
    simp only [List.foldl_cons]
    obtain ⟨h1, h2, h3, h4⟩ := objStep_spec line st sp hv ht hn hc
    exact ih _ _ h1 h2 h3 h4

/-- C7: each OBJ face line with `N` resolvable vertices contributes a fan of
exactly `N - 2` triangles, and the `triangulated_ngons` note appears in the
output exactly once when at least one face has more than three resolvable
vertices (and not at all otherwise), however many such faces there are. -/
theorem obj_ngon_fan_characterization :
    (∀ (sq : ℚ → ℚ) (text : String),
      (analyzeObj sq text).notes.count ngonNote =
        (if (objSpec text).sawNgon then 1 else 0) ∧
      (analyzeObj sq text).triangles = (objSpec text).triCount) ∧
    (∀ (st : ObjAcc) (line : List Char) (parts : List (List Char)),
      wsSplit line = fTok :: parts →
      (objStep st line).tris = st.tris ++ fanTriangulate (resolveFaceRefs st.vertices parts)) ∧
    (∀ fv : List Vec3, (fanTriangulate fv).length = fv.length - 2) := by
  refine ⟨fun sq text => ?_, fun st line parts hw => ?_, fanTriangulate_length⟩
  · obtain ⟨h1, h2, h3, h4⟩ := objFold_spec (splitLines text.data) ⟨[], [], []⟩ ⟨[], 0, false⟩
      rfl rfl rfl rfl
    constructor
    · show (((splitLines text.data).foldl objStep ⟨[], [], []⟩).notes ++
        (if hasSpaceDash text.data then [negIdxNote] else [])).count ngonNote = _
      rw [List.count_append]
      have hz : (if hasSpaceDash text.data then [negIdxNote] else []).count ngonNote = 0 := by
        by_cases hd : hasSpaceDash text.data <;> simp [hd, negIdxNote, ngonNote]
      rw [hz, Nat.add_zero, h3]
      rfl
    · show (calculateMetricsFromTriangles sq ((splitLines text.data).foldl objStep
        ⟨[], [], []⟩).tris 1).triangles = _
      rw [calculateMetrics_triangles, h2]
      rfl
  · unfold objStep
    rw [hw]
    dsimp only
    have hvf : ¬ (fTok = vTok) := by decide
    rw [if_neg hvf, if_pos rfl]
    by_cases hlen : (resolveFaceRefs st.vertices parts).length > 2
    · rw [if_pos hlen]
    · rw [if_neg hlen, fanTriangulate_short hlen, List.append_nil]

/-- Witness for the OBJ fan/note theorem on a concrete quad-face file. -/
theorem obj_ngon_fan_witness :
    (analyzeObj sqId objText).notes.count ngonNote = 1 ∧
    (analyzeObj sqId objText).triangles = 2 ∧
    wsSplit faceLine = fTok :: facePartsFix ∧
    (objStep objStPre faceLine).tris =
      objStPre.tris ++ fanTriangulate (resolveFaceRefs objStPre.vertices facePartsFix) := by
  have h := obj_ngon_fan_characterization
  have hsplit : wsSplit faceLine = fTok :: facePartsFix := by decide
  refine ⟨?_, ?_, hsplit, h.2.1 objStPre faceLine facePartsFix hsplit⟩
  · rw [(h.1 sqId objText).1]
    exact of_decide_eq_true (by with_unfolding_all rfl)
  · rw [(h.1 sqId objText).2]
    exact of_decide_eq_true (by with_unfolding_all rfl)

/-- C9 amended: the analyzer is deterministic in the file name and buffer —
two runs on the same inputs agree on every field except `parse_ms`, which is
exactly the difference of the two clock readings of that run (and so can
differ between runs); there is no other state. -/
theorem analyze_rerun_deterministic (sq : ℚ → ℚ)
    (d3 dA : List ℕ → Except String PreMetrics) (fn : String) (buf : List ℕ)
    (s1 e1 s2 e2 : ℤ) (m1 m2 : MeshMetrics)
    (h1 : analyzeMeshFile sq d3 dA fn buf s1 e1 = Except.ok m1)
    (h2 : analyzeMeshFile sq d3 dA fn buf s2 e2 = Except.ok m2) :
    m1.format = m2.format ∧ m1.units = m2.units ∧ m1.triangles = m2.triangles ∧
    m1.bbox_mm = m2.bbox_mm ∧ m1.surface_area_mm2 = m2.surface_area_mm2 ∧
    m1.volume_mm3 = m2.volume_mm3 ∧ m1.watertight_est = m2.watertight_est ∧
    m1.notes = m2.notes ∧ m1.file_bytes = m2.file_bytes ∧
    m1.parse_ms = e1 - s1 ∧ m2.parse_ms = e2 - s2 := by
  unfold analyzeMeshFile at h1 h2
  cases hr : analyzeCore sq d3 dA fn buf with
  | error e =>
    rw [hr] at h1
    exact absurd h1 (by simp)
  | ok pre =>
    rw [hr] at h1 h2
    simp only [Except.ok.injEq] at h1 h2
    subst h1
    subst h2
    exact ⟨rfl, rfl, rfl, rfl, rfl, rfl, rfl, rfl, rfl, rfl, rfl⟩

/-- Witness for the determinism theorem at a concrete binary STL buffer and
two different clock readings. -/
theorem analyze_rerun_deterministic_witness :
    (okM (analyzeMeshFile sqId noDec noDec fileCube buf84 0 0)).notes =
      (okM (analyzeMeshFile sqId noDec noDec fileCube buf84 0 5)).notes ∧
    (okM (analyzeMeshFile sqId noDec noDec fileCube buf84 0 0)).parse_ms = 0 - 0 ∧
    (okM (analyzeMeshFile sqId noDec noDec fileCube buf84 0 5)).parse_ms = 5 - 0 := by
  have h := analyze_rerun_deterministic sqId noDec noDec fileCube buf84 0 0 0 5
    (okM (analyzeMeshFile sqId noDec noDec fileCube buf84 0 0))
    (okM (analyzeMeshFile sqId noDec noDec fileCube buf84 0 5))
    (by with_unfolding_all rfl) (by with_unfolding_all rfl)
  exact ⟨h.2.2.2.2.2.2.2.1, h.2.2.2.2.2.2.2.2.2.1, h.2.2.2.2.2.2.2.2.2.2⟩

/-- C9 counterexample: the same file name, buffer and analyzer run at two
different wall-clock instants returns records differing in `parse_ms`, so
the output is not a function of the file name and bytes alone. -/
theorem analyze_rerun_counterexample :
    msOf (analyzeMeshFile sqId noDec noDec fileCube buf84 0 0) = 0 ∧
    msOf (analyzeMeshFile sqId noDec noDec fileCube buf84 0 5) = 5 ∧
    okM (analyzeMeshFile sqId noDec noDec fileCube buf84 0 0) ≠
      okM (analyzeMeshFile sqId noDec noDec fileCube buf84 0 5) := by
  refine ⟨?_, ?_, ?_⟩ <;> exact of_decide_eq_true (by with_unfolding_all rfl)

/-- C8: zero parsed triangles is a valid degenerate input: the geometry
reducer returns the all-zero, watertight record, both embedded parsers
return it whenever their triangle list is empty, and the analyzer router
returns `Except.ok` (never a parse error) on every STL and OBJ input. -/
theorem zero_triangle_analysis :
    (∀ (sq : ℚ → ℚ) (ucf : ℚ),
      calculateMetricsFromTriangles sq [] ucf =
        ⟨⟨0, 0, 0⟩, 0, 0, 0, true⟩) ∧
    (∀ (sq : ℚ → ℚ) (buf : List ℕ), stlTriangles buf = [] →
      (analyzeStl sq buf).bbox_mm = ⟨0, 0, 0⟩ ∧ (analyzeStl sq buf).volume_mm3 = 0 ∧
      (analyzeStl sq buf).surface_area_mm2 = 0 ∧ (analyzeStl sq buf).triangles = 0 ∧
      (analyzeStl sq buf).watertight_est = true) ∧
    (∀ (sq : ℚ → ℚ) (text : String),
      ((splitLines text.data).foldl objStep ⟨[], [], []⟩).tris = [] →
      (analyzeObj sq text).bbox_mm = ⟨0, 0, 0⟩ ∧ (analyzeObj sq text).volume_mm3 = 0 ∧
      (analyzeObj sq text).surface_area_mm2 = 0 ∧ (analyzeObj sq text).triangles = 0 ∧
      (analyzeObj sq text).watertight_est = true) ∧
    (∀ (sq : ℚ → ℚ) (d3 dA : List ℕ → Except String PreMetrics) (fn : String)
      (buf : List ℕ) (t0 t1 : ℤ), extOf fn = extStl ∨ extOf fn = extObj →
      (analyzeMeshFile sq d3 dA fn buf t0 t1).isOk = true) := by
  refine ⟨fun sq ucf => rfl, fun sq buf h => ?_, fun sq text h => ?_, ?_⟩
  · unfold analyzeStl preOfCore
    rw [h]
    exact ⟨rfl, rfl, rfl, rfl, rfl⟩
  · unfold analyzeObj preOfCore
    dsimp only
    rw [h]
    exact ⟨rfl, rfl, rfl, rfl, rfl⟩
  · intro sq d3 dA fn buf t0 t1 hext
    unfold analyzeMeshFile analyzeCore
    rcases hext with hext | hext
    · rw [hext, if_pos rfl]
      rfl
    · rw [hext]
      have hne : ¬ (extObj = extStl) := by decide
      rw [if_neg hne, if_pos rfl]
      rfl

/-- Witness for the zero-triangle theorem on concrete empty inputs. -/
theorem zero_triangle_analysis_witness :
    stlTriangles buf84 = [] ∧ (analyzeStl sqId buf84).watertight_est = true ∧
    ((splitLines emptyStr.data).foldl objStep ⟨[], [], []⟩).tris = [] ∧
    (analyzeObj sqId emptyStr).triangles = 0 ∧
    (extOf fileCube = extStl ∨ extOf fileCube = extObj) ∧
    (analyzeMeshFile sqId noDec noDec fileCube buf84 0 0).isOk = true := by
  have hstl : stlTriangles buf84 = [] := by decide
  have hobj : ((splitLines emptyStr.data).foldl objStep ⟨[], [], []⟩).tris = [] := by decide
  have hext : extOf fileCube = extStl ∨ extOf fileCube = extObj := Or.inl (by decide)
  exact ⟨hstl, (zero_triangle_analysis.2.1 sqId buf84 hstl).2.2.2.2,
    hobj, (zero_triangle_analysis.2.2.1 sqId emptyStr hobj).2.2.2.1,
    hext, zero_triangle_analysis.2.2.2 sqId noDec noDec fileCube buf84 0 0 hext⟩

/-- C5 amended: the STL dispatch treats a buffer as binary exactly when it
has at least 84 bytes, does not start with `solid`, and is at least
`84 + 50 * count` bytes long (at-least, not exactly equal); buffers starting
with `solid`, and buffers under 84 bytes, are parsed as ASCII. -/
theorem stl_dispatch_characterization :
    (∀ buf : List ℕ,
      stlIsBinary buf = true ↔
        (84 ≤ buf.length ∧ startsWithSolid buf = false ∧
         84 + 50 * readUInt32LE buf 80 ≤ buf.length)) ∧
    (∀ buf : List ℕ, startsWithSolid buf = true → stlTriangles buf = parseStlAscii buf) ∧
    (∀ buf : List ℕ, buf.length < 84 → stlTriangles buf = parseStlAscii buf) := by
  refine ⟨fun buf => ?_, fun buf h => ?_, fun buf h => ?_⟩
  · unfold stlIsBinary
    by_cases h1 : buf.length < 84
    · rw [if_pos h1]
      constructor
      · intro hcc
        exact absurd hcc (by simp)
      · intro hcc
        omega
    · rw [if_neg h1]
      cases h2 : startsWithSolid buf with
      | true =>
        simp only [if_true, Bool.true_eq_false, false_and, and_false, iff_false]
        simp
      | false =>
        simp only [if_false, Bool.false_eq_true, decide_eq_true_eq]
        constructor
        · intro hcc
          exact ⟨by omega, by trivial, hcc⟩
        · intro hcc
          exact hcc.2.2
  · have hfalse : stlIsBinary buf = false := by
      unfold stlIsBinary
      by_cases h1 : buf.length < 84
      · rw [if_pos h1]
      · rw [if_neg h1, h]
        simp
    unfold stlTriangles
    rw [hfalse]
    simp
  · have hfalse : stlIsBinary buf = false := by
      unfold stlIsBinary
      rw [if_pos h]
    unfold stlTriangles
    rw [hfalse]
    simp

/-- Witness for the STL dispatch theorem: a `solid`-prefixed buffer goes to
the ASCII parser, and so does a short buffer. -/
theorem stl_dispatch_witness :
    startsWithSolid bufSolid = true ∧ stlTriangles bufSolid = parseStlAscii bufSolid ∧
    bufSolid.length < 84 := by
  have hs : startsWithSolid bufSolid = true := by decide
  exact ⟨hs, stl_dispatch_characterization.2.1 bufSolid hs, by decide⟩

/-- C5 counterexample: an 85-byte all-zero buffer does not start with
`solid`, declares zero triangles, and is parsed as binary even though its
length is 85, not the exact `84 + 50 * 0 = 84` the claim requires. -/
theorem stl_dispatch_counterexample :
    startsWithSolid (List.replicate 85 0) = false ∧
    stlIsBinary (List.replicate 85 0) = true ∧
    (List.replicate 85 0).length ≠ 84 + 50 * readUInt32LE (List.replicate 85 0) 80 := by
  refine ⟨?_, ?_, ?_⟩ <;> decide

theorem foldl_pick_mem {α : Type} (better : α → α → Bool) (l : List α) (a : α) :
    l.foldl (fun b y => if better y b then y else b) a ∈ a :: l := by
  induction l generalizing a with
  | nil => simp
  | cons y ys ih =>
    simp only [List.foldl_cons]
    by_cases hb : better y a = true
    · rw [if_pos hb]
      exact List.mem_cons_of_mem _ (ih y)
    · rw [if_neg hb]
      rcases List.mem_cons.mp (ih a) with h1 | h1
      · rw [h1]
        exact List.mem_cons_self _ _
      · exact List.mem_cons_of_mem _ (List.mem_cons_of_mem _ h1)

theorem pickBy_mem {α : Type} {better : α → α → Bool} {l : List α} {x : α}
    (h : pickBy better l = some x) : x ∈ l := by
  cases l with
  | nil => exact absurd h (by simp [pickBy])
  | cons a ys =>
    unfold pickBy at h
    simp only [Option.some.injEq] at h
    rw [← h]
    exact foldl_pick_mem better ys a

theorem pickBy_eq_none {α : Type} {better : α → α → Bool} {l : List α}
    (h : pickBy better l = Option.none) : l = [] := by
  cases l with
  | nil => rfl
  | cons a ys => exact absurd h (by simp [pickBy])

theorem foldl_pick_min_le {α β : Type} [LinearOrder β] (f : α → β) (l : List α) (a : α) :
    f (l.foldl (fun b y => if decide (f y < f b) then y else b) a) ≤ f a ∧
    ∀ z ∈ l, f (l.foldl (fun b y => if decide (f y < f b) then y else b) a) ≤ f z := by
  induction l generalizing a with
  | nil => simp
  | cons y ys ih =>
    simp only [List.foldl_cons]
    obtain ⟨ih1, ih2⟩ := ih (if decide (f y < f a) then y else a)
    have hstep : f (if decide (f y < f a) then y else a) ≤ f a ∧
        f (if decide (f y < f a) then y else a) ≤ f y := by
      by_cases hb : f y < f a
      · rw [if_pos (by simpa using hb)]
        exact ⟨le_of_lt hb, le_refl _⟩
      · rw [if_neg (by simpa using hb)]
        exact ⟨le_refl _, le_of_not_lt hb⟩
    refine ⟨le_trans ih1 hstep.1, ?_⟩
    intro z hz
    rcases List.mem_cons.mp hz with rfl | hz
    · exact le_trans ih1 hstep.2
    · exact ih2 z hz

theorem pickBy_min {α β : Type} [LinearOrder β] (f : α → β) (l : List α) (x : α)
    (h : pickBy (fun u v => decide (f u < f v)) l = some x) :
    x ∈ l ∧ ∀ z ∈ l, f x ≤ f z := by
  cases l with
  | nil => exact absurd h (by simp [pickBy])
  | cons a ys =>
    unfold pickBy at h
    simp only [Option.some.injEq] at h
    rw [← h]
    refine ⟨foldl_pick_mem _ ys a, ?_⟩
    intro z hz
    obtain ⟨h1, h2⟩ := foldl_pick_min_le f ys a
    rcases List.mem_cons.mp hz with rfl | hz
    · exact h1
    · exact h2 z hz

theorem foldl_pick_max_ge {α β : Type} [LinearOrder β] (f : α → β) (l : List α) (a : α) :
    f a ≤ f (l.foldl (fun b y => if decide (f b < f y) then y else b) a) ∧
    ∀ z ∈ l, f z ≤ f (l.foldl (fun b y => if decide (f b < f y) then y else b) a) := by
  induction l generalizing a with
  | nil => simp
  | cons y ys ih =>
    simp only [List.foldl_cons]
    obtain ⟨ih1, ih2⟩ := ih (if decide (f a < f y) then y else a)
    have hstep : f a ≤ f (if decide (f a < f y) then y else a) ∧
        f y ≤ f (if decide (f a < f y) then y else a) := by
      by_cases hb : f a < f y
      · rw [if_pos (by simpa using hb)]
        exact ⟨le_of_lt hb, le_refl _⟩
      · rw [if_neg (by simpa using hb)]
        exact ⟨le_refl _, le_of_not_lt hb⟩
    refine ⟨le_trans hstep.1 ih1, ?_⟩
    intro z hz
    rcases List.mem_cons.mp hz with rfl | hz
    · exact le_trans hstep.2 ih1
    · exact ih2 z hz

theorem pickBy_max {α β : Type} [LinearOrder β] (f : α → β) (l : List α) (x : α)
    (h : pickBy (fun u v => decide (f v < f u)) l = some x) :
    x ∈ l ∧ ∀ z ∈ l, f z ≤ f x := by
  cases l with
  | nil => exact absurd h (by simp [pickBy])
  | cons a ys =>
    unfold pickBy at h
    simp only [Option.some.injEq] at h
    rw [← h]
    refine ⟨foldl_pick_mem _ ys a, ?_⟩
    intro z hz
    obtain ⟨h1, h2⟩ := foldl_pick_max_ge f ys a
    rcases List.mem_cons.mp hz with rfl | hz
    · exact h1
    · exact h2 z hz

theorem optLt_toWT (x y : Option ℚ) : optLt x y = decide (toWT x < toWT y) := by
  cases x <;> cases y <;>
    simp [optLt, toWT, WithTop.coe_lt_top, WithTop.coe_lt_coe, lt_irrefl]

theorem rateBetter_eq (nozzle : String) :
    rateBetter nozzle =
      fun u v => decide ((fun e : String × Printer => toWT (rateVal e.2 nozzle)) u <
        (fun e : String × Printer => toWT (rateVal e.2 nozzle)) v) := by
  funext u v
  unfold rateBetter
  exact optLt_toWT _ _

theorem areaBetter_eq :
    areaBetter = fun u v => decide ((fun e : String × Printer => xyArea e.2) v <
      (fun e : String × Printer => xyArea e.2) u) := rfl

theorem autoPick_mem {nozzle : String} {compat : List (String × Printer)} {bbox : BBox}
    {w0 : List String} {sel : Selection}
    (h : autoPick nozzle compat bbox w0 = some sel) : (sel.key, sel.printer) ∈ compat := by
  unfold autoPick at h
  dsimp only at h
  cases h1 : pickBy (rateBetter nozzle)
      (compat.filter (fun e => fitsBuild e.2.buildVolume_mm bbox)) with
  | some e =>
    rw [h1] at h
    simp only [Option.some.injEq] at h
    rw [← h]
    simpa using List.mem_of_mem_filter (pickBy_mem h1)
  | none =>
    rw [h1] at h
    cases h2 : pickBy areaBetter compat with
    | some e =>
      rw [h2] at h
      simp only [Option.some.injEq] at h
      rw [← h]
      simpa using pickBy_mem h2
    | none =>
      rw [h2] at h
      exact absurd h (by simp)

theorem selectPrinter_mem {nozzle : String} {autoSel0 : Bool} {userKey : Option String}
    {material : String} {compat : List (String × Printer)} {bbox : BBox} {sel : Selection}
    (h : selectPrinter nozzle autoSel0 userKey material compat bbox = some sel) :
    (sel.key, sel.printer) ∈ compat := by
  unfold selectPrinter at h
  cases autoSel0 with
  | true =>
    dsimp only at h
    exact autoPick_mem h
  | false =>
    cases userKey with
    | none =>
      dsimp only at h
      exact Option.noConfusion h
    | some k =>
      dsimp only at h
      cases hfind : compat.find? (fun e => decide (e.1 = k)) with
      | some e =>
        rw [hfind] at h
        simp only [Option.some.injEq] at h
        rw [← h]
        simpa using List.mem_of_find?_eq_some hfind
      | none =>
        rw [hfind] at h
        exact autoPick_mem h

theorem quoteGenerator_ok_inv {pm : PricingMatrix} {input : QuoteGeneratorInput}
    {est : EstimationOutput} {q : QuoteOutput}
    (h : quoteGenerator pm input est = Except.ok q) :
    ∃ filament sel,
      List.lookup input.material pm.filaments = some filament ∧
      selectPrinter input.nozzleSize input.autoPrinterSelection input.selectedPrinterKey
        input.material (compatScan filament.requirements pm.printers).1
        (bboxAfterScaling pm input.metrics.bbox_mm).1 = some sel ∧
      q = buildQuote pm input est filament (compatScan filament.requirements pm.printers).1 sel
        (bboxAfterScaling pm input.metrics.bbox_mm).1
        ((bboxAfterScaling pm input.metrics.bbox_mm).2 ++
          (compatScan filament.requirements pm.printers).2) := by
  unfold quoteGenerator at h
  cases hf : List.lookup input.material pm.filaments with
  | none =>
    rw [hf] at h
    exact absurd h (by simp)
  | some filament =>
    rw [hf] at h
    dsimp only at h
    by_cases he : ((compatScan filament.requirements pm.printers).1).isEmpty
    · rw [if_pos he] at h
      exact absurd h (by simp)
    · rw [if_neg he] at h
      cases hs : selectPrinter input.nozzleSize input.autoPrinterSelection
          input.selectedPrinterKey input.material
          (compatScan filament.requirements pm.printers).1
          (bboxAfterScaling pm input.metrics.bbox_mm).1 with
      | none =>
        rw [hs] at h
        exact absurd h (by simp)
      | some sel =>
        rw [hs] at h
        simp only [Except.ok.injEq] at h
        exact ⟨filament, sel, by first | exact hf | rfl, hs, h.symm⟩

theorem riskCostCalc_le (pm : PricingMatrix) (m s : ℚ) (t : SegTier) :
    riskCostCalc pm m s t ≤
      max pm.riskModel.minRisk ((m + s) * pm.riskModel.capPercentOfBase) := by
  unfold riskCostCalc
  exact max_le_max (le_refl _) (min_le_right _ _)

theorem riskCostCalc_le_cap (pm : PricingMatrix) (m s : ℚ) (t : SegTier)
    (hmin : pm.riskModel.minRisk ≤ (m + s) * pm.riskModel.capPercentOfBase) :
    riskCostCalc pm m s t ≤ (m + s) * pm.riskModel.capPercentOfBase := by
  unfold riskCostCalc
  exact max_le hmin (min_le_right _ _)

theorem buildQuote_total_eq (pm : PricingMatrix) (input : QuoteGeneratorInput)
    (est : EstimationOutput) (filament : Filament) (compat : List (String × Printer))
    (sel : Selection) (bbox : BBox) (w0 : List String) :
    (buildQuote pm input est filament compat sel bbox w0).costBreakdown.total =
      ((buildQuote pm input est filament compat sel bbox w0).costBreakdown.machine +
        (buildQuote pm input est filament compat sel bbox w0).costBreakdown.segmentation +
        (buildQuote pm input est filament compat sel bbox w0).costBreakdown.risk) *
        segTierMultiplier pm (buildQuote pm input est filament compat sel bbox w0).segmentationTier *
        complexityMultiplier pm input.metrics.triangles *
        longJobFactor pm (buildQuote pm input est filament compat sel bbox w0).estimatedHours +
        (buildQuote pm input est filament compat sel bbox w0).costBreakdown.material ∧
    (buildQuote pm input est filament compat sel bbox w0).costBreakdown.shippingEmbedded =
      (buildQuote pm input est filament compat sel bbox w0).estimatedHours *
        pm.embeddedPerHour := ⟨rfl, rfl⟩

theorem buildQuote_mode_not_bed (pm : PricingMatrix) (input : QuoteGeneratorInput)
    (est : EstimationOutput) (filament : Filament) (compat : List (String × Printer))
    (sel : Selection) (bbox : BBox) (w0 : List String)
    (hb : isBedCycleMode pm (!(fitsBuild sel.printer.buildVolume_mm bbox)) (maxDimOf bbox)
      est.printTimeHours = false) :
    (buildQuote pm input est filament compat sel bbox w0).mode = modeHourly ∧
    (buildQuote pm input est filament compat sel bbox w0).segmentCountEstimate = 1 := by
  constructor
  · show (if isBedCycleMode pm (!(fitsBuild sel.printer.buildVolume_mm bbox)) (maxDimOf bbox)
        est.printTimeHours then modeBedCycle else modeHourly) = modeHourly
    rw [hb]
    rfl
  · show (if isBedCycleMode pm (!(fitsBuild sel.printer.buildVolume_mm bbox)) (maxDimOf bbox)
          est.printTimeHours then
        bedCycleCore pm sel.key sel.printer input.nozzleSize bbox
          (!(fitsBuild sel.printer.buildVolume_mm bbox))
      else hourlyCore sel.printer input.nozzleSize est.printTimeHours).segmentCountEstimate = 1
    rw [hb]
    rfl

theorem buildQuote_fits_segcount (pm : PricingMatrix) (input : QuoteGeneratorInput)
    (est : EstimationOutput) (filament : Filament) (compat : List (String × Printer))
    (sel : Selection) (bbox : BBox) (w0 : List String)
    (hfit : fitsBuild sel.printer.buildVolume_mm bbox = true) :
    (buildQuote pm input est filament compat sel bbox w0).segmentCountEstimate = 1 := by
  show (if isBedCycleMode pm (!(fitsBuild sel.printer.buildVolume_mm bbox)) (maxDimOf bbox)
        est.printTimeHours then
      bedCycleCore pm sel.key sel.printer input.nozzleSize bbox
        (!(fitsBuild sel.printer.buildVolume_mm bbox))
    else hourlyCore sel.printer input.nozzleSize est.printTimeHours).segmentCountEstimate = 1
  rw [hfit]
  by_cases hb : isBedCycleMode pm (!true) (maxDimOf bbox) est.printTimeHours
  · rw [if_pos hb]
    rfl
  · rw [if_neg hb]
    rfl

theorem buildQuote_bedcycle_risk (pm : PricingMatrix) (input : QuoteGeneratorInput)
    (est : EstimationOutput) (filament : Filament) (compat : List (String × Printer))
    (sel : Selection) (bbox : BBox) (w0 : List String)
    (hmode : (buildQuote pm input est filament compat sel bbox w0).mode = modeBedCycle) :
    (buildQuote pm input est filament compat sel bbox w0).costBreakdown.risk =
      riskCostCalc pm (buildQuote pm input est filament compat sel bbox w0).costBreakdown.machine
        (buildQuote pm input est filament compat sel bbox w0).costBreakdown.segmentation
        (buildQuote pm input est filament compat sel bbox w0).segmentationTier := by
  cases hb : isBedCycleMode pm (!(fitsBuild sel.printer.buildVolume_mm bbox)) (maxDimOf bbox)
      est.printTimeHours with
  | false =>
    exfalso
    have hm : (buildQuote pm input est filament compat sel bbox w0).mode = modeHourly :=
      (buildQuote_mode_not_bed pm input est filament compat sel bbox w0 hb).1
    rw [hm] at hmode
    exact absurd hmode (by decide)
  | true =>
    show (if isBedCycleMode pm (!(fitsBuild sel.printer.buildVolume_mm bbox)) (maxDimOf bbox)
          est.printTimeHours then
        bedCycleCore pm sel.key sel.printer input.nozzleSize bbox
          (!(fitsBuild sel.printer.buildVolume_mm bbox))
      else hourlyCore sel.printer input.nozzleSize est.printTimeHours).riskCost =
      riskCostCalc pm
        (if isBedCycleMode pm (!(fitsBuild sel.printer.buildVolume_mm bbox)) (maxDimOf bbox)
            est.printTimeHours then
          bedCycleCore pm sel.key sel.printer input.nozzleSize bbox
            (!(fitsBuild sel.printer.buildVolume_mm bbox))
        else hourlyCore sel.printer input.nozzleSize est.printTimeHours).machineCost
        (if isBedCycleMode pm (!(fitsBuild sel.printer.buildVolume_mm bbox)) (maxDimOf bbox)
            est.printTimeHours then
          bedCycleCore pm sel.key sel.printer input.nozzleSize bbox
            (!(fitsBuild sel.printer.buildVolume_mm bbox))
        else hourlyCore sel.printer input.nozzleSize est.printTimeHours).segmentationCost
        (if isBedCycleMode pm (!(fitsBuild sel.printer.buildVolume_mm bbox)) (maxDimOf bbox)
            est.printTimeHours then
          bedCycleCore pm sel.key sel.printer input.nozzleSize bbox
            (!(fitsBuild sel.printer.buildVolume_mm bbox))
        else hourlyCore sel.printer input.nozzleSize est.printTimeHours).segmentationTier
    rw [hb]
    rfl

/-- C10: the quote total is the machine+segmentation+risk subtotal run
through the tier, complexity and long-job multipliers plus the material
cost; the `shippingEmbedded` entry is purely informational (final hours
times the embedded per-hour rate) and is never added into the total. -/
theorem quote_total_formula (pm : PricingMatrix) (input : QuoteGeneratorInput)
    (est : EstimationOutput) (q : QuoteOutput)
    (h : quoteGenerator pm input est = Except.ok q) :
    q.costBreakdown.total =
      (q.costBreakdown.machine + q.costBreakdown.segmentation + q.costBreakdown.risk) *
        segTierMultiplier pm q.segmentationTier *
        complexityMultiplier pm input.metrics.triangles *
        longJobFactor pm q.estimatedHours +
        q.costBreakdown.material ∧
    q.costBreakdown.shippingEmbedded = q.estimatedHours * pm.embeddedPerHour := by
  obtain ⟨fil, sel, hf, hs, hq⟩ := quoteGenerator_ok_inv h
  subst hq
  exact buildQuote_total_eq pm input est fil _ sel _ _

/-- Witness for the total-cost formula on a concrete Hourly quote. -/
theorem quote_total_formula_witness :
    (okOf (quoteGenerator pmPlain inPlain estBase)).costBreakdown.total =
      ((okOf (quoteGenerator pmPlain inPlain estBase)).costBreakdown.machine +
        (okOf (quoteGenerator pmPlain inPlain estBase)).costBreakdown.segmentation +
        (okOf (quoteGenerator pmPlain inPlain estBase)).costBreakdown.risk) *
        segTierMultiplier pmPlain (okOf (quoteGenerator pmPlain inPlain estBase)).segmentationTier *
        complexityMultiplier pmPlain inPlain.metrics.triangles *
        longJobFactor pmPlain (okOf (quoteGenerator pmPlain inPlain estBase)).estimatedHours +
        (okOf (quoteGenerator pmPlain inPlain estBase)).costBreakdown.material ∧
    (okOf (quoteGenerator pmPlain inPlain estBase)).costBreakdown.shippingEmbedded =
      (okOf (quoteGenerator pmPlain inPlain estBase)).estimatedHours * pmPlain.embeddedPerHour :=
  quote_total_formula pmPlain inPlain estBase (okOf (quoteGenerator pmPlain inPlain estBase))
    (by with_unfolding_all rfl)

/-- C1 amended: in Bed-Cycle mode the risk cost is the clamp
`max(minRisk, min(raw, capPercentOfBase * (machine + segmentation)))`; it
can exceed the cap only through the `minRisk` floor, so it is bounded by
`max(minRisk, cap * base)` always, and by `cap * (machine + segmentation)`
itself whenever `minRisk` does not exceed that cap (which holds for all
sufficiently large segment counts once rates are positive). -/
theorem quote_risk_capped (pm : PricingMatrix) (input : QuoteGeneratorInput)
    (est : EstimationOutput) (q : QuoteOutput)
    (h : quoteGenerator pm input est = Except.ok q)
    (hmode : q.mode = modeBedCycle) :
    q.costBreakdown.risk ≤
      max pm.riskModel.minRisk
        (pm.riskModel.capPercentOfBase *
          (q.costBreakdown.machine + q.costBreakdown.segmentation)) ∧
    (pm.riskModel.minRisk ≤
        pm.riskModel.capPercentOfBase *
          (q.costBreakdown.machine + q.costBreakdown.segmentation) →
      q.costBreakdown.risk ≤
        pm.riskModel.capPercentOfBase *
          (q.costBreakdown.machine + q.costBreakdown.segmentation)) := by
  obtain ⟨fil, sel, hf, hs, hq⟩ := quoteGenerator_ok_inv h
  subst hq
  rw [buildQuote_bedcycle_risk pm input est fil _ sel _ _ hmode]
  rw [mul_comm pm.riskModel.capPercentOfBase]
  exact ⟨riskCostCalc_le pm _ _ _, fun hmin => riskCostCalc_le_cap pm _ _ _ hmin⟩

/-- Witness for the risk-cap theorem on a concrete segmented Bed-Cycle
quote whose `minRisk` floor lies below the cap. -/
theorem quote_risk_capped_witness :
    (okOf (quoteGenerator (basePM [(keyP, mkPrinter keyP ⟨100, 100, 100⟩ 5 1)] 1)
        inRisk estBase)).costBreakdown.risk ≤
      (basePM [(keyP, mkPrinter keyP ⟨100, 100, 100⟩ 5 1)] 1).riskModel.capPercentOfBase *
        ((okOf (quoteGenerator (basePM [(keyP, mkPrinter keyP ⟨100, 100, 100⟩ 5 1)] 1)
            inRisk estBase)).costBreakdown.machine +
         (okOf (quoteGenerator (basePM [(keyP, mkPrinter keyP ⟨100, 100, 100⟩ 5 1)] 1)
            inRisk estBase)).costBreakdown.segmentation) :=
  (quote_risk_capped (basePM [(keyP, mkPrinter keyP ⟨100, 100, 100⟩ 5 1)] 1) inRisk estBase
      (okOf (quoteGenerator (basePM [(keyP, mkPrinter keyP ⟨100, 100, 100⟩ 5 1)] 1) inRisk estBase))
      (by with_unfolding_all rfl)
      (of_decide_eq_true (by with_unfolding_all rfl))).2
    (of_decide_eq_true (by with_unfolding_all rfl))

/-- C1 counterexample: with a `minRisk` floor of 100 against a segmented
Bed-Cycle job whose machine+segmentation base is 8, the risk cost is 100,
which exceeds `capPercentOfBase * (machine + segmentation) = 2`; so the
risk cost is not bounded by the cap as stated. -/
theorem quote_risk_cap_counterexample :
    (okOf (quoteGenerator pmRisk inRisk estBase)).mode = modeBedCycle ∧
    (okOf (quoteGenerator pmRisk inRisk estBase)).segmentCountEstimate = 4 ∧
    (okOf (quoteGenerator pmRisk inRisk estBase)).costBreakdown.risk >
      pmRisk.riskModel.capPercentOfBase *
        ((okOf (quoteGenerator pmRisk inRisk estBase)).costBreakdown.machine +
         (okOf (quoteGenerator pmRisk inRisk estBase)).costBreakdown.segmentation) := by
  refine ⟨?_, ?_, ?_⟩ <;> exact of_decide_eq_true (by with_unfolding_all rfl)

/-- C2 amended: if the (rescaled) bounding box fits the build volume of
every compatible printer, the quote has segment count exactly 1 for EVERY
estimator baseline and configuration (the source only raises the count when
the selected printer does not fit); the mode, however, is `Hourly` only
when additionally the maximal dimension is at most the 380mm threshold and
the estimator baseline hours stay below the large-assembly threshold
(otherwise the mode flips to Bed-Cycle even for a fitting box). -/
theorem quote_fits_all_hourly (pm : PricingMatrix) (input : QuoteGeneratorInput)
    (est : EstimationOutput) (q : QuoteOutput) (filament : Filament)
    (hf : List.lookup input.material pm.filaments = some filament)
    (h : quoteGenerator pm input est = Except.ok q)
    (hfits : ∀ e ∈ (compatScan filament.requirements pm.printers).1,
      fitsBuild e.2.buildVolume_mm (bboxAfterScaling pm input.metrics.bbox_mm).1 = true) :
    q.segmentCountEstimate = 1 ∧
    (maxDimOf (bboxAfterScaling pm input.metrics.bbox_mm).1 ≤ 380 →
      est.printTimeHours < pm.jobScaleRules.largeAssembly.minHours →
      q.mode = modeHourly) := by
  obtain ⟨fil, sel, hf2, hs, hq⟩ := quoteGenerator_ok_inv h
  rw [hf] at hf2
  injection hf2 with hfe
  subst hfe
  subst hq
  have hmem := selectPrinter_mem hs
  have hfit : fitsBuild sel.printer.buildVolume_mm
      (bboxAfterScaling pm input.metrics.bbox_mm).1 = true := hfits _ hmem
  refine ⟨buildQuote_fits_segcount pm input est filament
      (compatScan filament.requirements pm.printers).1 sel
      (bboxAfterScaling pm input.metrics.bbox_mm).1
      ((bboxAfterScaling pm input.metrics.bbox_mm).2 ++
        (compatScan filament.requirements pm.printers).2) hfit,
    fun hdim hhours => ?_⟩
  have hb : isBedCycleMode pm
      (!(fitsBuild sel.printer.buildVolume_mm (bboxAfterScaling pm input.metrics.bbox_mm).1))
      (maxDimOf (bboxAfterScaling pm input.metrics.bbox_mm).1) est.printTimeHours = false := by
    unfold isBedCycleMode
    rw [hfit]
    simp only [Bool.not_true, Bool.false_or]
    rw [decide_eq_false (not_lt.mpr hdim), decide_eq_false (not_le.mpr hhours)]
    rfl
  exact (buildQuote_mode_not_bed pm input est filament
    (compatScan filament.requirements pm.printers).1 sel
    (bboxAfterScaling pm input.metrics.bbox_mm).1
    ((bboxAfterScaling pm input.metrics.bbox_mm).2 ++
      (compatScan filament.requirements pm.printers).2) hb).1

/-- Witness for the fits-everywhere theorem on a concrete small box, with
the mode implication discharged at the same point. -/
theorem quote_fits_all_hourly_witness :
    (okOf (quoteGenerator pmPlain inPlain estBase)).segmentCountEstimate = 1 ∧
    (okOf (quoteGenerator pmPlain inPlain estBase)).mode = modeHourly := by
  have hth := quote_fits_all_hourly pmPlain inPlain estBase
    (okOf (quoteGenerator pmPlain inPlain estBase)) filPLA
    (by with_unfolding_all rfl)
    (by with_unfolding_all rfl)
    (of_decide_eq_true (by with_unfolding_all rfl))
  exact ⟨hth.1, hth.2 (of_decide_eq_true (by with_unfolding_all rfl))
    (of_decide_eq_true (by with_unfolding_all rfl))⟩

/-- C2 counterexample: a 50mm box fits every compatible printer, yet a
2000-hour estimator baseline pushes the job into Bed-Cycle mode, so the
mode is not `Hourly` for arbitrary baselines (the segment count does stay
1). -/
theorem quote_fits_all_mode_counterexample :
    ((compatScan filPLA.requirements pmFits.printers).1.all
      (fun e => fitsBuild e.2.buildVolume_mm
        (bboxAfterScaling pmFits inFits.metrics.bbox_mm).1)) = true ∧
    (okOf (quoteGenerator pmFits inFits estLong)).segmentCountEstimate = 1 ∧
    (okOf (quoteGenerator pmFits inFits estLong)).mode ≠ modeHourly ∧
    (okOf (quoteGenerator pmFits inFits estLong)).mode = modeBedCycle := by
  refine ⟨?_, ?_, ?_, ?_⟩ <;> exact of_decide_eq_true (by with_unfolding_all rfl)

/-- C4 amended: `quoteGenerator` leaves every field of the caller's metrics
record unchanged except `bbox_mm`, which it rewrites in place exactly when
a unit-sanity scale rule fires; when no rule fires the record is returned
untouched. -/
theorem quote_metrics_frame (pm : PricingMatrix) (input : QuoteGeneratorInput)
    (est : EstimationOutput) :
    ((quoteGeneratorRun pm input est).2.format = input.metrics.format ∧
     (quoteGeneratorRun pm input est).2.units = input.metrics.units ∧
     (quoteGeneratorRun pm input est).2.triangles = input.metrics.triangles ∧
     (quoteGeneratorRun pm input est).2.surface_area_mm2 = input.metrics.surface_area_mm2 ∧
     (quoteGeneratorRun pm input est).2.volume_mm3 = input.metrics.volume_mm3 ∧
     (quoteGeneratorRun pm input est).2.watertight_est = input.metrics.watertight_est ∧
     (quoteGeneratorRun pm input est).2.notes = input.metrics.notes ∧
     (quoteGeneratorRun pm input est).2.file_bytes = input.metrics.file_bytes ∧
     (quoteGeneratorRun pm input est).2.parse_ms = input.metrics.parse_ms) ∧
    ((bboxAfterScaling pm input.metrics.bbox_mm).1 = input.metrics.bbox_mm →
      (quoteGeneratorRun pm input est).2 = input.metrics) := by
  refine ⟨⟨rfl, rfl, rfl, rfl, rfl, rfl, rfl, rfl, rfl⟩, fun hb => ?_⟩
  show ({ input.metrics with
    bbox_mm := (bboxAfterScaling pm input.metrics.bbox_mm).1 } : MeshMetrics) = input.metrics
  rw [hb]

/-- Witness for the frame theorem: with unit sanity disabled no rule fires
and the record comes back equal. -/
theorem quote_metrics_frame_witness :
    (quoteGeneratorRun pmPlain inPlain estBase).2 = inPlain.metrics :=
  (quote_metrics_frame pmPlain inPlain estBase).2 (by with_unfolding_all rfl)

set_option maxRecDepth 8000 in
/-- C4 counterexample: with a scale rule firing (threshold 1000, divisor
10), running the quote engine rewrites the caller's `bbox_mm` from
`2000x100x100` to `200x10x10`, so the metrics record is mutated. -/
theorem quote_metrics_mutation_counterexample :
    (quoteGeneratorRun pmScale inScale estBase).2 ≠ inScale.metrics ∧
    (quoteGeneratorRun pmScale inScale estBase).2.bbox_mm = ⟨200, 10, 10⟩ ∧
    inScale.metrics.bbox_mm = ⟨2000, 100, 100⟩ := by
  refine ⟨?_, ?_, ?_⟩ <;> exact of_decide_eq_true (by with_unfolding_all rfl)

/-- C3 amended: under auto-selection the engine performs no orientation
search at all; among compatible printers whose build volume fits the
(rescaled) box unrotated it picks the earliest one with the lowest hourly
rate for the nozzle (a missing or zero rate counts as infinite), and when
no compatible printer fits unrotated it picks the earliest compatible
printer with the largest X*Y build area. -/
theorem quote_auto_selection_behavior (pm : PricingMatrix) (input : QuoteGeneratorInput)
    (est : EstimationOutput) (q : QuoteOutput) (filament : Filament)
    (hf : List.lookup input.material pm.filaments = some filament)
    (hauto : input.autoPrinterSelection = true)
    (h : quoteGenerator pm input est = Except.ok q) :
    ((compatScan filament.requirements pm.printers).1.filter
        (fun e => fitsBuild e.2.buildVolume_mm
          (bboxAfterScaling pm input.metrics.bbox_mm).1) ≠ [] →
      ∃ e ∈ (compatScan filament.requirements pm.printers).1.filter
          (fun e => fitsBuild e.2.buildVolume_mm
            (bboxAfterScaling pm input.metrics.bbox_mm).1),
        q.selectedPrinterKey = e.1 ∧
        ∀ e2 ∈ (compatScan filament.requirements pm.printers).1.filter
            (fun e => fitsBuild e.2.buildVolume_mm
              (bboxAfterScaling pm input.metrics.bbox_mm).1),
          toWT (rateVal e.2 input.nozzleSize) ≤ toWT (rateVal e2.2 input.nozzleSize)) ∧
    ((compatScan filament.requirements pm.printers).1.filter
        (fun e => fitsBuild e.2.buildVolume_mm
          (bboxAfterScaling pm input.metrics.bbox_mm).1) = [] →
      ∃ e ∈ (compatScan filament.requirements pm.printers).1,
        q.selectedPrinterKey = e.1 ∧
        ∀ e2 ∈ (compatScan filament.requirements pm.printers).1,
          xyArea e2.2 ≤ xyArea e.2) := by
  obtain ⟨fil, sel, hf2, hs, hq⟩ := quoteGenerator_ok_inv h
  rw [hf] at hf2
  injection hf2 with hfe
  subst hfe
  have hqk : q.selectedPrinterKey = sel.key := by subst hq; rfl
  rw [hauto] at hs
  have hsel : autoPick input.nozzleSize (compatScan filament.requirements pm.printers).1
      (bboxAfterScaling pm input.metrics.bbox_mm).1 [] = some sel := hs
  unfold autoPick at hsel
  dsimp only at hsel
  cases h1 : pickBy (rateBetter input.nozzleSize)
      ((compatScan filament.requirements pm.printers).1.filter
        (fun e => fitsBuild e.2.buildVolume_mm
          (bboxAfterScaling pm input.metrics.bbox_mm).1)) with
  | some e =>
    rw [h1] at hsel
    simp only [Option.some.injEq] at hsel
    have hkey2 : q.selectedPrinterKey = e.1 := by rw [hqk, ← hsel]
    rw [rateBetter_eq] at h1
    obtain ⟨hmem, hmin⟩ :=
      pickBy_min (fun e : String × Printer => toWT (rateVal e.2 input.nozzleSize)) _ _ h1
    constructor
    · intro _
      exact ⟨e, hmem, hkey2, hmin⟩
    · intro hemp
      rw [hemp] at h1
      simp [pickBy] at h1
  | none =>
    rw [h1] at hsel
    have hemp := pickBy_eq_none h1
    constructor
    · intro hne
      exact absurd hemp hne
    · intro _
      cases h2 : pickBy areaBetter (compatScan filament.requirements pm.printers).1 with
      | some e =>
        rw [h2] at hsel
        simp only [Option.some.injEq] at hsel
        have hkey2 : q.selectedPrinterKey = e.1 := by rw [hqk, ← hsel]
        rw [areaBetter_eq] at h2
        obtain ⟨hmem, hmax⟩ := pickBy_max (fun e : String × Printer => xyArea e.2) _ _ h2
        exact ⟨e, hmem, hkey2, hmax⟩
      | none =>
        rw [h2] at hsel
        exact Option.noConfusion hsel

/-- Witness for the auto-selection theorem on a configuration where the box
fits the single compatible printer unrotated. -/
theorem quote_auto_selection_witness :
    (compatScan filPLA.requirements pmPlain.printers).1.filter
        (fun e => fitsBuild e.2.buildVolume_mm
          (bboxAfterScaling pmPlain inPlain.metrics.bbox_mm).1) ≠ [] ∧
    (∃ e ∈ (compatScan filPLA.requirements pmPlain.printers).1.filter
        (fun e => fitsBuild e.2.buildVolume_mm
          (bboxAfterScaling pmPlain inPlain.metrics.bbox_mm).1),
      (okOf (quoteGenerator pmPlain inPlain estBase)).selectedPrinterKey = e.1 ∧
      ∀ e2 ∈ (compatScan filPLA.requirements pmPlain.printers).1.filter
          (fun e => fitsBuild e.2.buildVolume_mm
            (bboxAfterScaling pmPlain inPlain.metrics.bbox_mm).1),
        toWT (rateVal e.2 inPlain.nozzleSize) ≤ toWT (rateVal e2.2 inPlain.nozzleSize)) := by
  have hne : (compatScan filPLA.requirements pmPlain.printers).1.filter
      (fun e => fitsBuild e.2.buildVolume_mm
        (bboxAfterScaling pmPlain inPlain.metrics.bbox_mm).1) ≠ [] :=
    of_decide_eq_true (by with_unfolding_all rfl)
  exact ⟨hne,
    (quote_auto_selection_behavior pmPlain inPlain estBase
      (okOf (quoteGenerator pmPlain inPlain estBase)) filPLA
      (by with_unfolding_all rfl) rfl (by with_unfolding_all rfl)).1 hne⟩

/-- C3 counterexample: with printers `A` (400x100x200) and `B`
(250x250x250) and box 100x100x400, the claimed 6-orientation search picks
`A` (one segment after rotation), but the code, finding no unrotated fit,
picks `B` for its larger X*Y bed. -/
theorem quote_auto_selection_counterexample :
    specAutoSelectPrinter pmSel noz04 (compatScan filPLA.requirements pmSel.printers).1
      (bboxAfterScaling pmSel inSel.metrics.bbox_mm).1 = some keyA ∧
    (okOf (quoteGenerator pmSel inSel estBase)).selectedPrinterKey = keyB ∧
    keyA ≠ keyB := by
  refine ⟨?_, ?_, ?_⟩ <;> exact of_decide_eq_true (by with_unfolding_all rfl)

end Studio
